import Mathlib

/-!
# The Dart bridge of the XP2P SDK

A shallow embedding of `xp2p_sdk/ios/Classes/dart_bridge.cpp`: the port registry, the string
cache, the pending-request registry with its request counter, the envelopes handed to the
transport and the synchronous request/response round trip.

Conventions of the embedding.

* The global variables of the translation unit are the fields of `BridgeState`; every function
  of the source takes the state and returns the new one next to its C return value.
* A `const char*` argument is the string it points to (`Option String` where the source tests
  the pointer against null).  A `uint8_t*` buffer is the list of its bytes; its length travels
  separately, as in the source.
* `std::map` is an association list read through `map_find`, `map_assign`, `map_erase`.
* `std::shared_ptr<PendingRequest>` is the index of the object in `BridgeState.heap`, the list
  of all objects `std::make_shared` has produced so far.
* `uint64_t` arithmetic is arithmetic on `Nat` modulo `2 ^ 64`.
* The host transport `Dart_PostCObject_DL` and `Dart_InitializeApiDL` are not part of the
  program: they are parameters of the functions that call them.
* Two ghost fields record what the code does without changing what it computes: `held`, the
  locks the calling thread holds, and `log`, the sequence of registrations, transport
  invocations and bounded waits performed so far.
* The bounded wait is an interleaving point: the calls other threads make into the bridge
  while the caller is parked are a parameter of `send_device_data_request_sync`, and the wait
  ends with the completion flag as those calls leave it. Real time is not modelled.
* The function-static variables of `post_msg_message` are a field of the state; the function
  is the composition of `post_msg_message_fill` and `post_msg_message_post`, between which
  another thread can run, since no lock is held while the envelope is filled.
* Logging (`LOGD`, `LOGE`) has no effect on the state and is left out.
-/

namespace DartBridge

/-! ## Data model -/

/-- Modelled from the spec: the "illegal" sentinel of an unset port. `ILLEGAL_PORT` is declared
by `dart_api_dl.h`, which is not among the sources; no result below depends on its value. -/
def ILLEGAL_PORT : Int := 0

/-- The element type tag of a typed-data object; the bridge only uses `Dart_TypedData_kUint8`. -/
inductive Dart_TypedData_Type where
  | Dart_TypedData_kUint8
  deriving DecidableEq, Repr

/-- The message objects the bridge builds (`Dart_CObject`): strings, 32-bit integers, typed
byte data with its length, and arrays with their length field and element table. -/
inductive Dart_CObject where
  /-- The object with type tag 0 and no payload, as in zero-initialised static storage. -/
  | Dart_CObject_kNull
  | Dart_CObject_kString (as_string : String)
  | Dart_CObject_kInt32 (as_int32 : Int)
  | Dart_CObject_kTypedData (type : Dart_TypedData_Type) (length : Nat) (values : List Nat)
  | Dart_CObject_kArray (length : Nat) (values : List Dart_CObject)

/-- The host transport primitive `Dart_PostCObject_DL(port, message)`. -/
abbrev Transport := Int → Dart_CObject → Bool

/-- The payload part of `struct PendingRequest`; its mutex is tracked through `Lock`, its
condition variable carries no data. -/
structure PendingRequest where
  response : String
  completed : Bool
  deriving DecidableEq, Repr

/-- The constructor `PendingRequest() : completed(false) {}`. -/
def PendingRequest.new : PendingRequest := { response := "", completed := false }

/-- The mutexes of the bridge: the three global ones and the one inside each pending request. -/
inductive Lock where
  | g_port_mutex
  | g_requests_mutex
  | g_cache_mutex
  | request_mutex (request : Nat)
  deriving DecidableEq, Repr

/-- Ghost events: what the code did, in order. -/
inductive Effect where
  /-- `g_pending_requests[request_id] = request` inside `send_device_data_request_sync`. -/
  | registered (request_id : String) (request : Nat)
  /-- A call of the transport primitive, with the locks held by the caller at that moment. -/
  | Dart_PostCObject (held : List Lock) (port : Int) (message : Dart_CObject)
  /-- The caller entered `cv.wait_for` on the given request. -/
  | wait_for (held : List Lock) (request : Nat) (timeout_ms : Int)
  /-- The callbacks were handed to the XP2P library. -/
  | setUserCallbackToXp2p

/-- The global variables of `dart_bridge.cpp`, the heap of pending-request objects, the ghost
fields `held` and `log`, and the function-static envelope of `post_msg_message` (its
`c_message` with the element table `element_ptrs` and the elements `c_elements` it points
to), which all calls of that function share. -/
structure BridgeState where
  g_dart_api_dl_initialized : Bool
  g_dart_request_port : Int
  g_dart_response_port : Int
  g_string_cache : List (String × String)
  g_pending_requests : List (String × Nat)
  g_request_id_counter : Nat
  heap : List PendingRequest
  held : List Lock
  log : List Effect
  post_msg_message_c_message : Dart_CObject

/-- The state at program start, as the static initialisers of the source leave it. -/
def BridgeState.initial : BridgeState :=
  { g_dart_api_dl_initialized := false
    g_dart_request_port := ILLEGAL_PORT
    g_dart_response_port := ILLEGAL_PORT
    g_string_cache := []
    g_pending_requests := []
    g_request_id_counter := 0
    heap := []
    held := []
    log := []
    post_msg_message_c_message := Dart_CObject.Dart_CObject_kNull }

/-! ## `std::map`, locks, C strings -/

/-- The lookup `m.find(k)`: the value stored under `k`, if any. -/
def map_find {β : Type} (m : List (String × β)) (k : String) : Option β :=
  match m with
  | [] => none
  | e :: rest => if e.1 = k then some e.2 else map_find rest k

/-- The removal `m.erase(k)`. -/
def map_erase {β : Type} (m : List (String × β)) (k : String) : List (String × β) :=
  m.filter (fun e => !decide (e.1 = k))

/-- The assignment `m[k] = v`: afterwards `k` has the single value `v`. -/
def map_assign {β : Type} (m : List (String × β)) (k : String) (v : β) : List (String × β) :=
  map_erase m k ++ [(k, v)]

/-- The keys of a map. -/
def map_keys {β : Type} (m : List (String × β)) : List String :=
  m.map (fun e => e.1)

/-- A `std::lock_guard` or `std::unique_lock` taking the mutex. -/
def acquire (l : Lock) (s : BridgeState) : BridgeState :=
  { s with held := l :: s.held }

/-- The end of the scope of a lock guard. -/
def release (l : Lock) (s : BridgeState) : BridgeState :=
  { s with held := s.held.erase l }

/-- The C string a `std::string` exposes through `c_str()`, as seen by a reader that stops at
the first NUL character. -/
def c_str (value : String) : String :=
  String.mk (value.data.takeWhile (fun c => decide (c ≠ Char.ofNat 0)))

/-- The library function `strdup`: a fresh buffer with the same contents as the C string. -/
def strdup (p : String) : String := p

/-- The library function `std::to_string` on an unsigned integer: its decimal rendering. -/
def to_string (n : Nat) : String := Nat.repr n

/-- The value an unsigned 64-bit variable holds after the assignment of `n`. -/
def uint64_wrap (n : Nat) : Nat := n % 2 ^ 64

/-- The conversion of an `int` value to `int32_t`. -/
def to_int32 (x : Int) : Int := (x + 2 ^ 31) % 2 ^ 32 - 2 ^ 31

/-! ## Helper functions of the source -/

/-- The function `ensure_dart_api_dl_initialized`. -/
def ensure_dart_api_dl_initialized (s : BridgeState) : Bool :=
  if s.g_dart_api_dl_initialized then true else false

/-- The function `cache_string(key, value)`: returns the cached buffer. -/
def cache_string (s : BridgeState) (key value : String) : String × BridgeState :=
  let s := acquire Lock.g_cache_mutex s
  -- the buffer previously stored under the key, if any, is freed and then overwritten
  let cached := strdup (c_str value)
  let s := { s with g_string_cache := map_assign s.g_string_cache key cached }
  (cached, release Lock.g_cache_mutex s)

/-- The function `post_to_dart(message)`. -/
def post_to_dart (post : Transport) (s : BridgeState) (message : Dart_CObject) :
    Bool × BridgeState :=
  let s := acquire Lock.g_port_mutex s
  if s.g_dart_request_port = ILLEGAL_PORT then
    (false, release Lock.g_port_mutex s)
  else if !ensure_dart_api_dl_initialized s then
    (false, release Lock.g_port_mutex s)
  else
    -- the look at the type of the message and of its first element has an empty body
    let result := post s.g_dart_request_port message
    let s := { s with
      log := s.log ++ [Effect.Dart_PostCObject s.held s.g_dart_request_port message] }
    (result, release Lock.g_port_mutex s)

/-- The envelope built by `post_data_message`. -/
def data_message (type id : String) (data : List Nat) (len : Nat) : Dart_CObject :=
  Dart_CObject.Dart_CObject_kArray 3
    [ Dart_CObject.Dart_CObject_kString type,
      Dart_CObject.Dart_CObject_kString id,
      Dart_CObject.Dart_CObject_kTypedData Dart_TypedData_Type.Dart_TypedData_kUint8 len data ]

/-- The function `post_data_message(type, id, data, len)`. -/
def post_data_message (post : Transport) (s : BridgeState) (type id : String)
    (data : List Nat) (len : Nat) : Bool × BridgeState :=
  post_to_dart post s (data_message type id data len)

/-- The envelope built by `post_msg_message`. -/
def msg_message (id : String) (msg_type : Int) (msg : String) : Dart_CObject :=
  Dart_CObject.Dart_CObject_kArray 4
    [ Dart_CObject.Dart_CObject_kString "msg",
      Dart_CObject.Dart_CObject_kString id,
      Dart_CObject.Dart_CObject_kInt32 (to_int32 msg_type),
      Dart_CObject.Dart_CObject_kString msg ]

/-- The first part of `post_msg_message(id, msg_type, msg)`: the function-static `c_elements`,
`element_ptrs` and `c_message` are filled. No lock is held here. -/
def post_msg_message_fill (s : BridgeState) (id : String) (msg_type : Int) (msg : String) :
    BridgeState :=
  { s with post_msg_message_c_message := msg_message id msg_type msg }

/-- The last line of `post_msg_message`, `return post_to_dart(&c_message)`: what goes to the
transport is what the function-static envelope holds at this moment. -/
def post_msg_message_post (post : Transport) (s : BridgeState) : Bool × BridgeState :=
  post_to_dart post s s.post_msg_message_c_message

/-- The function `post_msg_message(id, msg_type, msg)`, run without another call of it in
between: the static envelope is filled and then posted. -/
def post_msg_message (post : Transport) (s : BridgeState) (id : String) (msg_type : Int)
    (msg : String) : Bool × BridgeState :=
  post_msg_message_post post (post_msg_message_fill s id msg_type msg)

/-! ## Public API that does not block -/

/-- The function `xp2p_set_dart_port(request_port, response_port)`. The transport primitive is
called once when the API is initialised; its result only selects a log line, so the primitive
is no parameter here and the call is recorded in `log`. -/
def xp2p_set_dart_port (s : BridgeState) (request_port response_port : Int) : BridgeState :=
  let s := acquire Lock.g_port_mutex s
  let s := { s with g_dart_request_port := request_port, g_dart_response_port := response_port }
  let s :=
    if !s.g_dart_api_dl_initialized then s
    else
      -- the test message
      { s with log := s.log ++ [Effect.Dart_PostCObject s.held s.g_dart_request_port
          (Dart_CObject.Dart_CObject_kString "__test__")] }
  let s := { s with log := s.log ++ [Effect.setUserCallbackToXp2p] }
  release Lock.g_port_mutex s

/-- The function `xp2p_init_dart_api(init_data)`; `init` is `Dart_InitializeApiDL`. -/
def xp2p_init_dart_api (init : Nat → Int) (s : BridgeState) (init_data : Option Nat) :
    Int × BridgeState :=
  match init_data with
  | none => (-1, s)
  | some p =>
    let result := init p
    if result ≠ 0 then (result, s)
    else (0, { s with g_dart_api_dl_initialized := true })

/-- The function `xp2p_clear_dart_port()`. -/
def xp2p_clear_dart_port (s : BridgeState) : BridgeState :=
  let s := acquire Lock.g_port_mutex s
  let s := { s with g_dart_request_port := ILLEGAL_PORT, g_dart_response_port := ILLEGAL_PORT }
  let s := acquire Lock.g_cache_mutex s
  -- every cached buffer is freed, then the map is cleared
  let s := { s with g_string_cache := [] }
  let s := release Lock.g_cache_mutex s
  release Lock.g_port_mutex s

/-- The function `xp2p_av_recv_bridge(id, data, len)`. -/
def xp2p_av_recv_bridge (post : Transport) (s : BridgeState) (id : String) (data : List Nat)
    (len : Nat) : BridgeState :=
  (post_data_message post s "avRecv" id data len).2

/-- The function `xp2p_msg_bridge(id, type, msg)`. The enumerators `XP2PTypeSaveFileOn` and
`XP2PTypeSaveFileUrl` are declared in `AppWrapper.h`, which is not among the sources; their
values are parameters. -/
def xp2p_msg_bridge (XP2PTypeSaveFileOn XP2PTypeSaveFileUrl : Int) (post : Transport)
    (s : BridgeState) (id : String) (type : Int) (msg : String) : String × BridgeState :=
  if type = XP2PTypeSaveFileOn then ("0", s)
  else if type = XP2PTypeSaveFileUrl then ("", s)
  else
    let r := post_msg_message post s id type msg
    ("", r.2)

/-- The function `xp2p_handle_device_data_response(request_id, response)`. -/
def xp2p_handle_device_data_response (s : BridgeState) (request_id response : Option String) :
    BridgeState :=
  match request_id, response with
  | some rid, some resp =>
    let s := acquire Lock.g_requests_mutex s
    match map_find s.g_pending_requests rid with
    | none => release Lock.g_requests_mutex s
    | some request =>
      let s := release Lock.g_requests_mutex s
      let s := acquire (Lock.request_mutex request) s
      let s := { s with heap := s.heap.set request { response := resp, completed := true } }
      -- the waiter is notified after the guard is gone
      release (Lock.request_mutex request) s
  | _, _ => s

/-! ## The synchronous round trip -/

/-- A call another thread makes into the bridge, and which returns without blocking, while a
caller is parked in the bounded wait. -/
inductive HostCall where
  | xp2p_handle_device_data_response (request_id response : Option String)
  | xp2p_set_dart_port (request_port response_port : Int)
  | xp2p_init_dart_api (init : Nat → Int) (init_data : Option Nat)
  | xp2p_clear_dart_port
  | xp2p_av_recv_bridge (post : Transport) (id : String) (data : List Nat) (len : Nat)
  | xp2p_msg_bridge (XP2PTypeSaveFileOn XP2PTypeSaveFileUrl : Int) (post : Transport)
      (id : String) (type : Int) (msg : String)

/-- The effect of one host call on the shared state. -/
def HostCall.apply (c : HostCall) (s : BridgeState) : BridgeState :=
  match c with
  | HostCall.xp2p_handle_device_data_response rid resp =>
    DartBridge.xp2p_handle_device_data_response s rid resp
  | HostCall.xp2p_set_dart_port rp sp => DartBridge.xp2p_set_dart_port s rp sp
  | HostCall.xp2p_init_dart_api init d => (DartBridge.xp2p_init_dart_api init s d).2
  | HostCall.xp2p_clear_dart_port => DartBridge.xp2p_clear_dart_port s
  | HostCall.xp2p_av_recv_bridge post id data len =>
    DartBridge.xp2p_av_recv_bridge post s id data len
  | HostCall.xp2p_msg_bridge v_on v_url post id type msg =>
    (DartBridge.xp2p_msg_bridge v_on v_url post s id type msg).2

/-- The effect of a sequence of host calls, run by threads that hold no lock of the caller. -/
def run_host_calls (calls : List HostCall) (s : BridgeState) : BridgeState :=
  let t := calls.foldl (fun t c => c.apply t) { s with held := [] }
  { t with held := s.held }

/-- The completion flag of a pending request. -/
def request_completed (s : BridgeState) (request : Nat) : Bool :=
  match s.heap.get? request with
  | some r => r.completed
  | none => false

/-- The payload of a pending request. -/
def request_response (s : BridgeState) (request : Nat) : String :=
  match s.heap.get? request with
  | some r => r.response
  | none => ""

/-- The bounded wait `request->cv.wait_for(lock, timeout, [&]{ return request->completed; })`:
the caller gives up the mutex of the request, the calls in `during_wait` happen, the caller
takes the mutex again and the result is the value of the completion flag. -/
def wait_for (during_wait : List HostCall) (s : BridgeState) (request : Nat) (timeout_ms : Int) :
    Bool × BridgeState :=
  let s := release (Lock.request_mutex request) s
  let s := { s with log := s.log ++ [Effect.wait_for s.held request timeout_ms] }
  let s := run_host_calls during_wait s
  let s := acquire (Lock.request_mutex request) s
  (request_completed s request, s)

/-- The envelope built by `send_device_data_request_sync`. -/
def device_data_request_message (request_id id : String) (data : List Nat) (len : Nat) :
    Dart_CObject :=
  Dart_CObject.Dart_CObject_kArray 4
    [ Dart_CObject.Dart_CObject_kString "deviceDataRequest",
      Dart_CObject.Dart_CObject_kString request_id,
      Dart_CObject.Dart_CObject_kString id,
      Dart_CObject.Dart_CObject_kTypedData Dart_TypedData_Type.Dart_TypedData_kUint8 len data ]

/-- The request id the next call with logical id `id` generates in state `s`
(`std::string(id) + "_" + std::to_string(g_request_id_counter++)`). -/
def next_request_id (s : BridgeState) (id : String) : String :=
  id ++ "_" ++ to_string s.g_request_id_counter

/-- The function `send_device_data_request_sync(id, data, len, timeout_ms)`. The list
`during_wait` is what other threads do between the successful send and the end of the wait. -/
def send_device_data_request_sync (post : Transport) (during_wait : List HostCall)
    (s : BridgeState) (id : String) (data : List Nat) (len : Nat) (timeout_ms : Int) :
    String × BridgeState :=
  -- the unique request id
  let s := acquire Lock.g_requests_mutex s
  let request_id := next_request_id s id
  let s := { s with g_request_id_counter := uint64_wrap (s.g_request_id_counter + 1) }
  let s := release Lock.g_requests_mutex s
  -- the pending request
  let request := s.heap.length
  let s := { s with heap := s.heap ++ [PendingRequest.new] }
  let s := acquire Lock.g_requests_mutex s
  let s := { s with
    g_pending_requests := map_assign s.g_pending_requests request_id request
    log := s.log ++ [Effect.registered request_id request] }
  let s := release Lock.g_requests_mutex s
  -- the request goes to Dart
  let sent := post_to_dart post s (device_data_request_message request_id id data len)
  if !sent.1 then
    let s := acquire Lock.g_requests_mutex sent.2
    let s := { s with g_pending_requests := map_erase s.g_pending_requests request_id }
    ("", release Lock.g_requests_mutex s)
  else
    -- the wait for the response
    let s := acquire (Lock.request_mutex request) sent.2
    let waited := wait_for during_wait s request timeout_ms
    let response := if waited.1 then request_response waited.2 request else ""
    let s := release (Lock.request_mutex request) waited.2
    -- the cleanup
    let s := acquire Lock.g_requests_mutex s
    let s := { s with g_pending_requests := map_erase s.g_pending_requests request_id }
    (response, release Lock.g_requests_mutex s)

/-- The function `xp2p_device_data_bridge(id, data, len)`: `none` is the null pointer. -/
def xp2p_device_data_bridge (post : Transport) (during_wait : List HostCall) (s : BridgeState)
    (id : String) (data : List Nat) (len : Nat) : Option String × BridgeState :=
  let r := send_device_data_request_sync post during_wait s id data len 5000
  if r.1.isEmpty then (none, r.2) else (some (strdup (c_str r.1)), r.2)

/-- The state in which a call with logical id `id` of `send_device_data_request_sync` enters
the bounded wait after a successful send: the counter is advanced, the pending request is
allocated and registered, the envelope has gone to the transport. -/
def waiting_state (s : BridgeState) (id : String) (data : List Nat) (len : Nat)
    (timeout_ms : Int) : BridgeState :=
  { s with
    g_request_id_counter := uint64_wrap (s.g_request_id_counter + 1)
    heap := s.heap ++ [PendingRequest.new]
    g_pending_requests := map_assign s.g_pending_requests (next_request_id s id) s.heap.length
    log := s.log ++ [Effect.registered (next_request_id s id) s.heap.length,
      Effect.Dart_PostCObject (Lock.g_port_mutex :: s.held) s.g_dart_request_port
        (device_data_request_message (next_request_id s id) id data len),
      Effect.wait_for s.held s.heap.length timeout_ms] }

/-- The end of `send_device_data_request_sync` once the wait is over in state `t`: the
response is harvested when the request is completed, and the entry is erased. -/
def harvest (t : BridgeState) (request_id : String) (request : Nat) : String × BridgeState :=
  (if request_completed t request then request_response t request else "",
    { t with g_pending_requests := map_erase t.g_pending_requests request_id })

/-! ## Runs of synchronous calls -/

/-- The arguments and the environment of one call of `send_device_data_request_sync`. -/
structure SyncCall where
  post : Transport
  during_wait : List HostCall
  id : String
  data : List Nat
  len : Nat
  timeout_ms : Int

/-- One call of `send_device_data_request_sync`, seen as a state transition. -/
def SyncCall.run (c : SyncCall) (s : BridgeState) : BridgeState :=
  (send_device_data_request_sync c.post c.during_wait s c.id c.data c.len c.timeout_ms).2

/-- A sequence of calls of `send_device_data_request_sync`, one after the other. -/
def run_sync_calls (s : BridgeState) (calls : List SyncCall) : BridgeState :=
  calls.foldl (fun t c => c.run t) s

/-- The request ids registered in a log, in order. -/
def registered_ids (log : List Effect) : List String :=
  log.filterMap (fun e =>
    match e with
    | Effect.registered request_id _ => some request_id
    | _ => none)

/-- The request ids generated by a sequence of calls started in state `s`: the ids registered
in the part of the log the calls have written. -/
def generated_request_ids (s : BridgeState) (calls : List SyncCall) : List String :=
  registered_ids ((run_sync_calls s calls).log.drop s.log.length)

/-- The request ids of a sequence of calls when the counter starts at `c`: each call renders
the current counter value and advances it. -/
def ids_from (c : Nat) : List SyncCall → List String
  | [] => []
  | x :: xs => (x.id ++ "_" ++ to_string c) :: ids_from (uint64_wrap (c + 1)) xs

/-- A call for the logical id "dev1" whose envelope the transport rejects. -/
def sample_call : SyncCall :=
  { post := fun _ _ => false
    during_wait := []
    id := "dev1"
    data := [1, 2, 3]
    len := 3
    timeout_ms := 5000 }

/-- No entry of the registry points outside the heap of pending-request objects: every
`shared_ptr` stored in the map owns an object. -/
def registry_WF (s : BridgeState) : Prop :=
  ∀ e ∈ s.g_pending_requests, e.2 < s.heap.length

instance (s : BridgeState) : Decidable (registry_WF s) := by
  unfold registry_WF
  infer_instance

/-- Whether a host call is a resolution of the request id `rid`, that is a call of
`xp2p_handle_device_data_response` with that id and a response that is not null. -/
def HostCall.resolves (rid : String) (c : HostCall) : Bool :=
  match c with
  | HostCall.xp2p_handle_device_data_response (some k) (some _) => decide (k = rid)
  | _ => false

/-! ## Runs of bridge calls and the locks held at transport calls -/

/-- A call of a thread into the bridge: one of the calls that return without blocking, a call
of `send_device_data_request_sync`, or a call of `xp2p_device_data_bridge`. -/
inductive BridgeCall where
  | host (c : HostCall)
  | sync (c : SyncCall)
  | xp2p_device_data_bridge (post : Transport) (during_wait : List HostCall) (id : String)
      (data : List Nat) (len : Nat)

/-- The effect of one bridge call on the state. -/
def BridgeCall.run (c : BridgeCall) (s : BridgeState) : BridgeState :=
  match c with
  | BridgeCall.host h => h.apply s
  | BridgeCall.sync x => x.run s
  | BridgeCall.xp2p_device_data_bridge post during_wait id data len =>
    (DartBridge.xp2p_device_data_bridge post during_wait s id data len).2

/-- A sequence of bridge calls, one after the other. -/
def run_bridge_calls (s : BridgeState) (calls : List BridgeCall) : BridgeState :=
  calls.foldl (fun t c => c.run t) s

/-- The sets of locks held at the transport calls of a log, in order. -/
def transport_held (log : List Effect) : List (List Lock) :=
  log.filterMap (fun e =>
    match e with
    | Effect.Dart_PostCObject held _ _ => some held
    | _ => none)

/-- The messages handed to the transport in a log, in order. -/
def transport_messages (log : List Effect) : List Dart_CObject :=
  log.filterMap (fun e =>
    match e with
    | Effect.Dart_PostCObject _ _ message => some message
    | _ => none)

/-- The start of a session: the API is initialised, the ports are set, and one event
["avRecv", "cam1", 1 byte] is sent. -/
def session_calls : List BridgeCall :=
  [ BridgeCall.host (HostCall.xp2p_init_dart_api (fun _ => 0) (some 1)),
    BridgeCall.host (HostCall.xp2p_set_dart_port 4711 4712),
    BridgeCall.host (HostCall.xp2p_av_recv_bridge (fun _ _ => true) "cam1" [7] 1) ]

/-! ## C strings in resolutions -/

/-- A string that a `const char*` can point to: it has no NUL character. -/
def is_c_string (p : String) : Prop := Char.ofNat 0 ∉ p.data

instance (p : String) : Decidable (is_c_string p) := by
  unfold is_c_string
  infer_instance

/-- Whether the response a host call hands to `xp2p_handle_device_data_response`, if it is
such a call with a response that is not null, is a C string. -/
def HostCall.response_is_c_string (c : HostCall) : Bool :=
  match c with
  | HostCall.xp2p_handle_device_data_response _ (some resp) => decide (is_c_string resp)
  | _ => true

/-! ## Concrete states and environments -/

/-- A connected bridge: the API has been initialised and the ports have been set. -/
def connected : BridgeState :=
  xp2p_set_dart_port (xp2p_init_dart_api (fun _ => 0) BridgeState.initial (some 1)).2 4711 4712

/-- A transport that accepts every message. -/
def accepting : Transport := fun _ _ => true

/-- A transport that rejects every message. -/
def rejecting : Transport := fun _ _ => false

/-- The shared state after the ports were cleared while a thread is parked in the wait of its
request "cam2_0", sent on the connected bridge. -/
def cleared_while_waiting : BridgeState :=
  xp2p_clear_dart_port (waiting_state connected "cam2" [9] 1 5000)

/-- A call for the logical id "x" whose envelope the transport rejects. -/
def other_call : SyncCall :=
  { post := fun _ _ => false
    during_wait := []
    id := "x"
    data := []
    len := 0
    timeout_ms := 5000 }

/-- The shared state of the following schedule: on the connected bridge a thread sends the
request "dev1_0" and is parked in its wait; the ports are cleared; a second thread makes
`2 ^ 64 - 1` calls for the logical id "x", each of which fails fast. -/
def parked_and_wrapped : BridgeState :=
  Nat.iterate other_call.run (2 ^ 64 - 1)
    (xp2p_clear_dart_port (waiting_state connected "dev1" [1, 2, 3] 3 5000))

/-- The shared state after two overlapping calls of `xp2p_msg_bridge` on the connected bridge,
for ("A", 1002, "a") and for ("B", 1002, "b"), both past the tests of the type and inside
`post_msg_message`: the first thread fills the static envelope, the second thread fills it,
the first thread posts, the second thread posts. -/
def overlapping_msg_calls : BridgeState :=
  (post_msg_message_post accepting
    (post_msg_message_post accepting
      (post_msg_message_fill (post_msg_message_fill connected "A" 1002 "a") "B" 1002 "b")).2).2

/-- The shared state after the same two calls of `xp2p_msg_bridge`, one after the other. -/
def consecutive_msg_calls : BridgeState :=
  (xp2p_msg_bridge 8000 8001 accepting
    (xp2p_msg_bridge 8000 8001 accepting connected "A" 1002 "a").2 "B" 1002 "b").2

/-- The three-character `std::string` made of 'a', a NUL character and 'b'. -/
def with_nul : String := String.mk ['a', Char.ofNat 0, 'b']

/-! ## Lemmas on maps and locks -/

theorem map_find_eq_none_iff {β : Type} (m : List (String × β)) (k : String) :
    map_find m k = none ↔ k ∉ map_keys m := by
  induction m with
  | nil => simp [map_find, map_keys]
  | cons e rest ih =>
    by_cases h : e.1 = k
    · simp [map_find, map_keys, h]
    · have h2 : ¬ k = e.1 := fun x => h x.symm
      simpa [map_find, map_keys, h, h2] using ih

theorem map_erase_nil {β : Type} (k : String) : map_erase ([] : List (String × β)) k = [] := rfl

theorem map_erase_cons {β : Type} (e : String × β) (rest : List (String × β)) (k : String) :
    map_erase (e :: rest) k = if e.1 = k then map_erase rest k else e :: map_erase rest k := by
  by_cases h : e.1 = k <;> simp [map_erase, List.filter_cons, h]

theorem map_erase_append {β : Type} (m n : List (String × β)) (k : String) :
    map_erase (m ++ n) k = map_erase m k ++ map_erase n k := by
  simp [map_erase, List.filter_append]

theorem map_erase_of_not_mem {β : Type} (m : List (String × β)) (k : String)
    (h : k ∉ map_keys m) : map_erase m k = m := by
  induction m with
  | nil => rfl
  | cons e rest ih =>
    have h1 : ¬ e.1 = k := by
      intro hk
      apply h
      simp [map_keys, hk]
    have h2 : k ∉ map_keys rest := by
      intro hk
      apply h
      simp only [map_keys, List.map_cons, List.mem_cons]
      exact Or.inr hk
    rw [map_erase_cons, if_neg h1, ih h2]

theorem map_keys_erase {β : Type} (m : List (String × β)) (k : String) :
    k ∉ map_keys (map_erase m k) := by
  induction m with
  | nil => simp [map_keys, map_erase]
  | cons e rest ih =>
    rw [map_erase_cons]
    by_cases h1 : e.1 = k
    · rw [if_pos h1]
      exact ih
    · rw [if_neg h1]
      intro hk
      simp only [map_keys, List.map_cons, List.mem_cons] at hk
      cases hk with
      | inl h2 => exact h1 h2.symm
      | inr h2 => exact ih h2

theorem map_erase_erase {β : Type} (m : List (String × β)) (k : String) :
    map_erase (map_erase m k) k = map_erase m k :=
  map_erase_of_not_mem _ _ (map_keys_erase m k)

theorem map_erase_assign {β : Type} (m : List (String × β)) (k : String) (v : β) :
    map_erase (map_assign m k v) k = map_erase m k := by
  unfold map_assign
  rw [map_erase_append, map_erase_erase, map_erase_cons, if_pos rfl, map_erase_nil,
    List.append_nil]

theorem map_find_append {β : Type} (m n : List (String × β)) (k : String) :
    map_find (m ++ n) k = (map_find m k).orElse (fun _ => map_find n k) := by
  induction m with
  | nil => simp [map_find]
  | cons e rest ih =>
    by_cases h : e.1 = k
    · simp [map_find, h]
    · simp [map_find, h, ih]

theorem map_find_erase_self {β : Type} (m : List (String × β)) (k : String) :
    map_find (map_erase m k) k = none :=
  (map_find_eq_none_iff _ _).2 (map_keys_erase m k)

theorem map_find_erase_ne {β : Type} (m : List (String × β)) (k k2 : String) (h : k2 ≠ k) :
    map_find (map_erase m k) k2 = map_find m k2 := by
  induction m with
  | nil => rfl
  | cons e rest ih =>
    rw [map_erase_cons]
    by_cases h1 : e.1 = k
    · have h2 : ¬ e.1 = k2 := by
        rw [h1]
        exact fun x => h x.symm
      rw [if_pos h1, ih]
      simp [map_find, h2]
    · rw [if_neg h1]
      by_cases h2 : e.1 = k2
      · simp [map_find, h2]
      · simp [map_find, h2, ih]

theorem map_find_assign_self {β : Type} (m : List (String × β)) (k : String) (v : β) :
    map_find (map_assign m k v) k = some v := by
  simp [map_assign, map_find_append, map_find_erase_self, map_find]

theorem map_find_assign_ne {β : Type} (m : List (String × β)) (k k2 : String) (v : β)
    (h : k2 ≠ k) : map_find (map_assign m k v) k2 = map_find m k2 := by
  have h2 : ¬ k = k2 := fun x => h x.symm
  simp [map_assign, map_find_append, map_find_erase_ne m k k2 h, map_find, h2]

theorem map_assign_assign {β : Type} (m : List (String × β)) (k : String) (v w : β) :
    map_assign (map_assign m k v) k w = map_assign m k w := by
  have h := map_erase_assign m k v
  unfold map_assign at h
  unfold map_assign
  rw [h]

theorem map_erase_entries {β : Type} (m : List (String × β)) (k : String) :
    (map_erase m k).filter (fun e => decide (e.1 = k)) = [] := by
  induction m with
  | nil => rfl
  | cons e rest ih =>
    rw [map_erase_cons]
    by_cases h1 : e.1 = k
    · rw [if_pos h1]
      exact ih
    · rw [if_neg h1]
      simp [List.filter_cons, h1, ih]

theorem map_assign_entries {β : Type} (m : List (String × β)) (k : String) (v : β) :
    (map_assign m k v).filter (fun e => decide (e.1 = k)) = [(k, v)] := by
  simp [map_assign, List.filter_append, map_erase_entries]

theorem release_acquire (l : Lock) (s : BridgeState) : release l (acquire l s) = s := by
  cases s
  simp [release, acquire]

theorem post_to_dart_unavailable (post : Transport) (s : BridgeState) (message : Dart_CObject)
    (h : s.g_dart_request_port = ILLEGAL_PORT ∨ s.g_dart_api_dl_initialized = false) :
    post_to_dart post s message = (false, s) := by
  rcases s with ⟨ini, rp, sp, cache, reg, cnt, heap, held, log, statics⟩
  unfold post_to_dart
  simp only at h
  by_cases hp : rp = ILLEGAL_PORT
  · simp [acquire, release, hp]
  · have hi : ini = false := by
      cases h with
      | inl h1 => exact absurd h1 hp
      | inr h2 => exact h2
    simp [acquire, release, hp, hi, ensure_dart_api_dl_initialized]

theorem post_to_dart_available (post : Transport) (s : BridgeState) (message : Dart_CObject)
    (hp : s.g_dart_request_port ≠ ILLEGAL_PORT) (hi : s.g_dart_api_dl_initialized = true) :
    post_to_dart post s message =
      (post s.g_dart_request_port message,
        { s with log := s.log ++
          [Effect.Dart_PostCObject (Lock.g_port_mutex :: s.held) s.g_dart_request_port message] })
    := by
  unfold post_to_dart
  simp [acquire, release, hp, hi, ensure_dart_api_dl_initialized]

theorem next_request_id_acquire (l : Lock) (s : BridgeState) (id : String) :
    next_request_id (acquire l s) id = next_request_id s id := rfl

theorem send_unavailable (post : Transport) (during_wait : List HostCall) (s : BridgeState)
    (id : String) (data : List Nat) (len : Nat) (timeout_ms : Int)
    (h : s.g_dart_request_port = ILLEGAL_PORT ∨ s.g_dart_api_dl_initialized = false) :
    send_device_data_request_sync post during_wait s id data len timeout_ms =
      ("", { s with
        g_request_id_counter := uint64_wrap (s.g_request_id_counter + 1)
        heap := s.heap ++ [PendingRequest.new]
        g_pending_requests := map_erase s.g_pending_requests (next_request_id s id)
        log := s.log ++ [Effect.registered (next_request_id s id) s.heap.length] }) := by
  unfold send_device_data_request_sync
  simp only [release_acquire]
  rw [post_to_dart_unavailable]
  · simp [acquire, release, map_erase_assign, next_request_id]
  · simpa [acquire, release] using h

theorem send_rejected (post : Transport) (during_wait : List HostCall) (s : BridgeState)
    (id : String) (data : List Nat) (len : Nat) (timeout_ms : Int)
    (hp : s.g_dart_request_port ≠ ILLEGAL_PORT) (hi : s.g_dart_api_dl_initialized = true)
    (hpost : post s.g_dart_request_port
      (device_data_request_message (next_request_id s id) id data len) = false) :
    send_device_data_request_sync post during_wait s id data len timeout_ms =
      ("", { s with
        g_request_id_counter := uint64_wrap (s.g_request_id_counter + 1)
        heap := s.heap ++ [PendingRequest.new]
        g_pending_requests := map_erase s.g_pending_requests (next_request_id s id)
        log := s.log ++ [Effect.registered (next_request_id s id) s.heap.length,
          Effect.Dart_PostCObject (Lock.g_port_mutex :: s.held) s.g_dart_request_port
            (device_data_request_message (next_request_id s id) id data len)] }) := by
  unfold send_device_data_request_sync
  simp only [release_acquire, next_request_id_acquire]
  rw [post_to_dart_available _ _ _ (by simpa [acquire, release] using hp)
    (by simpa [acquire, release] using hi)]
  simp only [acquire, release, List.erase_cons_head, hpost, map_erase_assign]
  simp

theorem send_accepted (post : Transport) (during_wait : List HostCall) (s : BridgeState)
    (id : String) (data : List Nat) (len : Nat) (timeout_ms : Int)
    (hp : s.g_dart_request_port ≠ ILLEGAL_PORT) (hi : s.g_dart_api_dl_initialized = true)
    (hpost : post s.g_dart_request_port
      (device_data_request_message (next_request_id s id) id data len) = true) :
    send_device_data_request_sync post during_wait s id data len timeout_ms =
      harvest (run_host_calls during_wait (waiting_state s id data len timeout_ms))
        (next_request_id s id) s.heap.length := by
  unfold send_device_data_request_sync
  simp only [release_acquire, next_request_id_acquire]
  rw [post_to_dart_available _ _ _ (by simpa [acquire, release] using hp)
    (by simpa [acquire, release] using hi)]
  simp only [hpost, wait_for, acquire, release, List.erase_cons_head, harvest, waiting_state,
    request_completed, request_response, run_host_calls]
  simp

/-! ## What the host calls leave alone -/

theorem post_to_dart_frame (post : Transport) (s : BridgeState) (message : Dart_CObject) :
    (post_to_dart post s message).2.g_pending_requests = s.g_pending_requests ∧
    (post_to_dart post s message).2.heap = s.heap ∧
    (post_to_dart post s message).2.g_request_id_counter = s.g_request_id_counter ∧
    (post_to_dart post s message).2.g_string_cache = s.g_string_cache ∧
    (post_to_dart post s message).2.held = s.held := by
  unfold post_to_dart
  simp only [acquire, release]
  split_ifs <;> simp

theorem post_msg_message_frame (post : Transport) (s : BridgeState) (id : String)
    (msg_type : Int) (msg : String) :
    (post_msg_message post s id msg_type msg).2.g_pending_requests = s.g_pending_requests ∧
    (post_msg_message post s id msg_type msg).2.heap = s.heap ∧
    (post_msg_message post s id msg_type msg).2.g_request_id_counter =
      s.g_request_id_counter ∧
    (post_msg_message post s id msg_type msg).2.g_string_cache = s.g_string_cache ∧
    (post_msg_message post s id msg_type msg).2.held = s.held :=
  post_to_dart_frame post (post_msg_message_fill s id msg_type msg)
    (msg_message id msg_type msg)

theorem handle_response_found (s : BridgeState) (rid resp : String) (request : Nat)
    (h : map_find s.g_pending_requests rid = some request) :
    xp2p_handle_device_data_response s (some rid) (some resp) =
      { s with heap := s.heap.set request { response := resp, completed := true } } := by
  unfold xp2p_handle_device_data_response
  simp [acquire, release, h]

theorem handle_response_not_found (s : BridgeState) (rid resp : String)
    (h : map_find s.g_pending_requests rid = none) :
    xp2p_handle_device_data_response s (some rid) (some resp) = s := by
  unfold xp2p_handle_device_data_response
  simp only [acquire, h]
  exact release_acquire _ _

theorem handle_response_frame (s : BridgeState) (rid resp : Option String) :
    (xp2p_handle_device_data_response s rid resp).g_pending_requests = s.g_pending_requests ∧
    (xp2p_handle_device_data_response s rid resp).heap.length = s.heap.length ∧
    (xp2p_handle_device_data_response s rid resp).g_request_id_counter =
      s.g_request_id_counter ∧
    (xp2p_handle_device_data_response s rid resp).held = s.held := by
  cases rid with
  | none => simp [xp2p_handle_device_data_response]
  | some k =>
    cases resp with
    | none => simp [xp2p_handle_device_data_response]
    | some r =>
      cases hf : map_find s.g_pending_requests k with
      | none => rw [handle_response_not_found s k r hf]; simp
      | some request => rw [handle_response_found s k r request hf]; simp

theorem apply_frame (c : HostCall) (s : BridgeState) :
    (c.apply s).g_pending_requests = s.g_pending_requests ∧
    (c.apply s).heap.length = s.heap.length ∧
    (c.apply s).g_request_id_counter = s.g_request_id_counter ∧
    (c.apply s).held = s.held := by
  cases c with
  | xp2p_handle_device_data_response rid resp => exact handle_response_frame s rid resp
  | xp2p_set_dart_port rp sp =>
    simp only [HostCall.apply, xp2p_set_dart_port, acquire, release]
    split_ifs <;> simp
  | xp2p_init_dart_api init d =>
    cases d with
    | none => simp [HostCall.apply, xp2p_init_dart_api]
    | some p =>
      simp only [HostCall.apply, xp2p_init_dart_api]
      split_ifs <;> simp
  | xp2p_clear_dart_port => simp [HostCall.apply, xp2p_clear_dart_port, acquire, release]
  | xp2p_av_recv_bridge post id data len =>
    have h := post_to_dart_frame post s (data_message "avRecv" id data len)
    simp only [HostCall.apply, xp2p_av_recv_bridge, post_data_message]
    exact ⟨h.1, by rw [h.2.1], h.2.2.1, h.2.2.2.2⟩
  | xp2p_msg_bridge v_on v_url post id type msg =>
    have h := post_msg_message_frame post s id type msg
    simp only [HostCall.apply, xp2p_msg_bridge]
    split_ifs
    · simp
    · simp
    · exact ⟨h.1, by rw [h.2.1], h.2.2.1, h.2.2.2.2⟩

theorem resolves_handle (rid k resp : String)
    (h : (HostCall.xp2p_handle_device_data_response (some k) (some resp)).resolves rid = false) :
    k ≠ rid := by
  simpa [HostCall.resolves] using h

theorem apply_heap_get (c : HostCall) (s : BridgeState) (request : Nat)
    (hc : ∀ k resp, c = HostCall.xp2p_handle_device_data_response (some k) (some resp) →
      map_find s.g_pending_requests k ≠ some request) :
    (c.apply s).heap.get? request = s.heap.get? request := by
  cases c with
  | xp2p_handle_device_data_response rid resp =>
    cases rid with
    | none => simp [HostCall.apply, xp2p_handle_device_data_response]
    | some k =>
      cases resp with
      | none => simp [HostCall.apply, xp2p_handle_device_data_response]
      | some r =>
        have hk := hc k r rfl
        simp only [HostCall.apply]
        cases hf : map_find s.g_pending_requests k with
        | none => rw [handle_response_not_found s k r hf]
        | some other =>
          rw [handle_response_found s k r other hf]
          have hne : other ≠ request := by
            intro he
            apply hk
            rw [hf, he]
          simp [List.getElem?_set, hne]
  | xp2p_set_dart_port rp sp =>
    simp only [HostCall.apply, xp2p_set_dart_port, acquire, release]
    split_ifs <;> simp
  | xp2p_init_dart_api init d =>
    cases d with
    | none => simp [HostCall.apply, xp2p_init_dart_api]
    | some p =>
      simp only [HostCall.apply, xp2p_init_dart_api]
      split_ifs <;> simp
  | xp2p_clear_dart_port => simp [HostCall.apply, xp2p_clear_dart_port, acquire, release]
  | xp2p_av_recv_bridge post id data len =>
    have h := post_to_dart_frame post s (data_message "avRecv" id data len)
    simp only [HostCall.apply, xp2p_av_recv_bridge, post_data_message]
    rw [h.2.1]
  | xp2p_msg_bridge v_on v_url post id type msg =>
    have h := post_msg_message_frame post s id type msg
    simp only [HostCall.apply, xp2p_msg_bridge]
    split_ifs
    · simp
    · simp
    · rw [h.2.1]

theorem host_fold_frame (calls : List HostCall) (s : BridgeState) :
    (calls.foldl (fun t c => c.apply t) s).g_pending_requests = s.g_pending_requests ∧
    (calls.foldl (fun t c => c.apply t) s).heap.length = s.heap.length ∧
    (calls.foldl (fun t c => c.apply t) s).g_request_id_counter = s.g_request_id_counter ∧
    (calls.foldl (fun t c => c.apply t) s).held = s.held := by
  induction calls generalizing s with
  | nil => simp
  | cons c rest ih =>
    have h1 := apply_frame c s
    have h2 := ih (c.apply s)
    simp only [List.foldl_cons]
    exact ⟨h2.1.trans h1.1, h2.2.1.trans h1.2.1, h2.2.2.1.trans h1.2.2.1,
      h2.2.2.2.trans h1.2.2.2⟩

theorem host_fold_heap_get (calls : List HostCall) (s : BridgeState) (request : Nat)
    (hc : ∀ c ∈ calls, ∀ k resp,
      c = HostCall.xp2p_handle_device_data_response (some k) (some resp) →
      map_find s.g_pending_requests k ≠ some request) :
    (calls.foldl (fun t c => c.apply t) s).heap.get? request = s.heap.get? request := by
  induction calls generalizing s with
  | nil => simp
  | cons c rest ih =>
    simp only [List.foldl_cons]
    have h1 := apply_heap_get c s request (hc c (List.mem_cons_self _ _))
    have h2 := ih (c.apply s) (by
      intro d hd k resp hk
      rw [(apply_frame c s).1]
      exact hc d (List.mem_cons_of_mem _ hd) k resp hk)
    exact h2.trans h1

theorem run_host_calls_frame (calls : List HostCall) (s : BridgeState) :
    (run_host_calls calls s).g_pending_requests = s.g_pending_requests ∧
    (run_host_calls calls s).heap.length = s.heap.length ∧
    (run_host_calls calls s).g_request_id_counter = s.g_request_id_counter :=
  ⟨(host_fold_frame calls { s with held := [] }).1,
    (host_fold_frame calls { s with held := [] }).2.1,
    (host_fold_frame calls { s with held := [] }).2.2.1⟩

theorem map_find_mem {β : Type} (m : List (String × β)) (k : String) (v : β)
    (h : map_find m k = some v) : (k, v) ∈ m := by
  induction m with
  | nil => simp [map_find] at h
  | cons e rest ih =>
    by_cases h1 : e.1 = k
    · simp only [map_find, if_pos h1, Option.some.injEq] at h
      have : e = (k, v) := by
        rw [← h1, ← h]
      rw [this]
      exact List.mem_cons_self _ _
    · simp only [map_find, if_neg h1] at h
      exact List.mem_cons_of_mem _ (ih h)

/-- Under a well-formed registry, after the registration of a new request under `rid` the
new object is reachable from `rid` only. -/
theorem registered_only_under_rid (s : BridgeState) (rid k : String) (hwf : registry_WF s)
    (hk : k ≠ rid) :
    map_find (map_assign s.g_pending_requests rid s.heap.length) k ≠ some s.heap.length := by
  rw [map_find_assign_ne _ _ _ _ hk]
  intro h
  have := hwf _ (map_find_mem _ _ _ h)
  simp at this

theorem harvest_registry (t : BridgeState) (rid : String) (request : Nat) :
    (harvest t rid request).2.g_pending_requests = map_erase t.g_pending_requests rid := rfl

theorem send_registry (post : Transport) (during_wait : List HostCall) (s : BridgeState)
    (id : String) (data : List Nat) (len : Nat) (timeout_ms : Int) :
    (send_device_data_request_sync post during_wait s id data len timeout_ms).2.g_pending_requests
      = map_erase s.g_pending_requests (next_request_id s id) := by
  by_cases h : s.g_dart_request_port = ILLEGAL_PORT ∨ s.g_dart_api_dl_initialized = false
  · rw [send_unavailable _ _ _ _ _ _ _ h]
  · have hp : s.g_dart_request_port ≠ ILLEGAL_PORT := fun x => h (Or.inl x)
    have hi : s.g_dart_api_dl_initialized = true := by
      cases hb : s.g_dart_api_dl_initialized with
      | false => exact absurd (Or.inr hb) h
      | true => rfl
    cases hpost : post s.g_dart_request_port
        (device_data_request_message (next_request_id s id) id data len) with
    | false => rw [send_rejected _ _ _ _ _ _ _ hp hi hpost]
    | true =>
      rw [send_accepted _ _ _ _ _ _ _ hp hi hpost, harvest_registry,
        (run_host_calls_frame _ _).1]
      exact map_erase_assign _ _ _

theorem registered_ids_append (a b : List Effect) :
    registered_ids (a ++ b) = registered_ids a ++ registered_ids b := by
  simp [registered_ids, List.filterMap_append]

theorem post_to_dart_log (post : Transport) (s : BridgeState) (message : Dart_CObject) :
    ∃ rest, (post_to_dart post s message).2.log = s.log ++ rest ∧ registered_ids rest = [] := by
  unfold post_to_dart
  simp only [acquire, release]
  split_ifs
  · exact ⟨[], by simp, rfl⟩
  · exact ⟨[], by simp, rfl⟩
  · exact ⟨[Effect.Dart_PostCObject (Lock.g_port_mutex :: s.held) s.g_dart_request_port
      message], rfl, rfl⟩

theorem post_msg_message_log (post : Transport) (s : BridgeState) (id : String)
    (msg_type : Int) (msg : String) :
    ∃ rest, (post_msg_message post s id msg_type msg).2.log = s.log ++ rest ∧
      registered_ids rest = [] :=
  post_to_dart_log post (post_msg_message_fill s id msg_type msg)
    (msg_message id msg_type msg)

theorem apply_log (c : HostCall) (s : BridgeState) :
    ∃ rest, (c.apply s).log = s.log ++ rest ∧ registered_ids rest = [] := by
  cases c with
  | xp2p_handle_device_data_response rid resp =>
    refine ⟨[], ?_, rfl⟩
    cases rid with
    | none => simp [HostCall.apply, xp2p_handle_device_data_response]
    | some k =>
      cases resp with
      | none => simp [HostCall.apply, xp2p_handle_device_data_response]
      | some r =>
        simp only [HostCall.apply]
        cases hf : map_find s.g_pending_requests k with
        | none => rw [handle_response_not_found s k r hf]; simp
        | some request => rw [handle_response_found s k r request hf]; simp
  | xp2p_set_dart_port rp sp =>
    simp only [HostCall.apply, xp2p_set_dart_port, acquire, release]
    split_ifs
    · exact ⟨[Effect.setUserCallbackToXp2p], rfl, rfl⟩
    · exact ⟨[Effect.Dart_PostCObject (Lock.g_port_mutex :: s.held) rp
        (Dart_CObject.Dart_CObject_kString "__test__"), Effect.setUserCallbackToXp2p],
        by simp, rfl⟩
  | xp2p_init_dart_api init d =>
    refine ⟨[], ?_, rfl⟩
    cases d with
    | none => simp [HostCall.apply, xp2p_init_dart_api]
    | some p =>
      simp only [HostCall.apply, xp2p_init_dart_api]
      split_ifs <;> simp
  | xp2p_clear_dart_port =>
    exact ⟨[], by simp [HostCall.apply, xp2p_clear_dart_port, acquire, release], rfl⟩
  | xp2p_av_recv_bridge post id data len =>
    exact post_to_dart_log post s (data_message "avRecv" id data len)
  | xp2p_msg_bridge v_on v_url post id type msg =>
    simp only [HostCall.apply, xp2p_msg_bridge]
    split_ifs
    · exact ⟨[], by simp, rfl⟩
    · exact ⟨[], by simp, rfl⟩
    · exact post_msg_message_log post s id type msg

theorem host_fold_log (calls : List HostCall) (s : BridgeState) :
    ∃ rest, (calls.foldl (fun t c => c.apply t) s).log = s.log ++ rest ∧
      registered_ids rest = [] := by
  induction calls generalizing s with
  | nil => exact ⟨[], by simp, rfl⟩
  | cons c tail ih =>
    obtain ⟨r1, h1, g1⟩ := apply_log c s
    obtain ⟨r2, h2, g2⟩ := ih (c.apply s)
    refine ⟨r1 ++ r2, ?_, ?_⟩
    · simp only [List.foldl_cons]
      rw [h2, h1, List.append_assoc]
    · rw [registered_ids_append, g1, g2]
      rfl

theorem run_host_calls_log (calls : List HostCall) (s : BridgeState) :
    ∃ rest, (run_host_calls calls s).log = s.log ++ rest ∧ registered_ids rest = [] :=
  host_fold_log calls { s with held := [] }

theorem c_str_of_no_nul (value : String) (h : Char.ofNat 0 ∉ value.data) :
    c_str value = value := by
  unfold c_str
  have : value.data.takeWhile (fun c => decide (c ≠ Char.ofNat 0)) = value.data := by
    rw [List.takeWhile_eq_self_iff]
    intro c hc
    have : c ≠ Char.ofNat 0 := fun he => h (he ▸ hc)
    simpa using this
  rw [this]

/-! ## Request ids -/

theorem digitChar_ne_underscore (d : Nat) (h : d < 10) : Nat.digitChar d ≠ '_' := by
  interval_cases d <;> decide

theorem toDigitsCore_no_underscore (fuel n : Nat) (ds : List Char) (h : '_' ∉ ds) :
    '_' ∉ Nat.toDigitsCore 10 fuel n ds := by
  induction fuel generalizing n ds with
  | zero => simpa [Nat.toDigitsCore] using h
  | succ f ih =>
    have hcons : '_' ∉ Nat.digitChar (n % 10) :: ds := by
      intro hm
      rcases List.mem_cons.1 hm with h1 | h1
      · exact digitChar_ne_underscore _ (Nat.mod_lt _ (by decide)) h1.symm
      · exact h h1
    simp only [Nat.toDigitsCore]
    split_ifs
    · exact hcons
    · exact ih _ _ hcons

theorem digitChar_value (k : Nat) (h : k < 10) : (Nat.digitChar k).toNat - 48 = k := by
  interval_cases k <;> rfl

theorem toDigitsCore_value (fuel n : Nat) (ds : List Char) (h : n < fuel) :
    (Nat.toDigitsCore 10 fuel n ds).foldl (fun acc c => acc * 10 + (c.toNat - 48)) 0 =
      ds.foldl (fun acc c => acc * 10 + (c.toNat - 48)) n := by
  induction fuel generalizing n ds with
  | zero => omega
  | succ f ih =>
    simp only [Nat.toDigitsCore]
    split_ifs with h0
    · have hn : n % 10 = n := by omega
      simp only [List.foldl_cons, Nat.zero_mul, Nat.zero_add]
      rw [digitChar_value _ (Nat.mod_lt _ (by decide)), hn]
    · rw [ih (n / 10) _ (by omega)]
      simp only [List.foldl_cons]
      rw [digitChar_value _ (Nat.mod_lt _ (by decide))]
      have : n / 10 * 10 + n % 10 = n := by omega
      rw [this]

theorem toDigits_injective (n m : Nat) (h : Nat.toDigits 10 n = Nat.toDigits 10 m) : n = m := by
  have hn := toDigitsCore_value (n + 1) n [] (Nat.lt_succ_self n)
  have hm := toDigitsCore_value (m + 1) m [] (Nat.lt_succ_self m)
  simp only [List.foldl_nil] at hn hm
  unfold Nat.toDigits at h
  rw [← hn, ← hm, h]

theorem to_string_data (n : Nat) : (to_string n).data = Nat.toDigits 10 n := rfl

theorem append_underscore_cancel (a b d e : List Char) (hd : '_' ∉ d) (he : '_' ∉ e)
    (h : a ++ '_' :: d = b ++ '_' :: e) : a = b ∧ d = e := by
  induction a generalizing b with
  | nil =>
    cases b with
    | nil =>
      simp only [List.nil_append, List.cons.injEq, true_and] at h
      exact ⟨rfl, h⟩
    | cons y b2 =>
      simp only [List.nil_append, List.cons_append, List.cons.injEq] at h
      exact absurd (h.2 ▸ List.mem_append_right b2 (List.mem_cons_self _ _)) hd
  | cons x a2 ih =>
    cases b with
    | nil =>
      simp only [List.nil_append, List.cons_append, List.cons.injEq] at h
      exact absurd (h.2 ▸ List.mem_append_right a2 (List.mem_cons_self _ _)) he
    | cons y b2 =>
      simp only [List.cons_append, List.cons.injEq] at h
      obtain ⟨h1, h2⟩ := ih b2 h.2
      exact ⟨by rw [h.1, h1], h2⟩

/-- The request id determines the logical id and the counter value it was built from. -/
theorem request_id_injective (a b : String) (n m : Nat)
    (h : a ++ "_" ++ to_string n = b ++ "_" ++ to_string m) : a = b ∧ n = m := by
  have hdata := congrArg String.data h
  simp only [String.data_append, to_string_data, List.append_assoc] at hdata
  simp only [List.singleton_append] at hdata
  have hn : '_' ∉ Nat.toDigits 10 n := toDigitsCore_no_underscore _ _ _ (List.not_mem_nil _)
  have hm : '_' ∉ Nat.toDigits 10 m := toDigitsCore_no_underscore _ _ _ (List.not_mem_nil _)
  obtain ⟨h1, h2⟩ := append_underscore_cancel _ _ _ _ hn hm hdata
  exact ⟨String.ext h1, toDigits_injective n m h2⟩

theorem ids_from_cons (c : Nat) (x : SyncCall) (xs : List SyncCall) :
    ids_from c (x :: xs) = (x.id ++ "_" ++ to_string c) :: ids_from (uint64_wrap (c + 1)) xs :=
  rfl

theorem ids_from_length (c : Nat) (calls : List SyncCall) :
    (ids_from c calls).length = calls.length := by
  induction calls generalizing c with
  | nil => rfl
  | cons x xs ih => simp [ids_from, ih]

theorem mem_ids_from (c : Nat) (calls : List SyncCall) (t : String) (h : t ∈ ids_from c calls) :
    ∃ (a : String) (m j : Nat), t = a ++ "_" ++ to_string m ∧ j < calls.length ∧
      m % 2 ^ 64 = (c + j) % 2 ^ 64 := by
  induction calls generalizing c with
  | nil => simp [ids_from] at h
  | cons x xs ih =>
    simp only [ids_from, List.mem_cons] at h
    rcases h with h | h
    · exact ⟨x.id, c, 0, h, by simp, rfl⟩
    · obtain ⟨a, m, j, h1, h2, h3⟩ := ih _ h
      refine ⟨a, m, j + 1, h1, by simpa using h2, ?_⟩
      rw [h3]
      unfold uint64_wrap
      omega

theorem ids_from_nodup (c : Nat) (calls : List SyncCall) (h : calls.length ≤ 2 ^ 64) :
    (ids_from c calls).Nodup := by
  induction calls generalizing c with
  | nil => simp [ids_from]
  | cons x xs ih =>
    simp only [List.length_cons] at h
    simp only [ids_from, List.nodup_cons]
    refine ⟨?_, ih _ (by omega)⟩
    intro hmem
    obtain ⟨a, m, j, h1, h2, h3⟩ := mem_ids_from _ _ _ hmem
    have hcm : c = m := (request_id_injective _ _ _ _ h1).2
    unfold uint64_wrap at h3
    omega

theorem mem_ids_from_replicate (x : SyncCall) (n c j : Nat) (hj : j < n) (hc : c < 2 ^ 64) :
    x.id ++ "_" ++ to_string ((c + j) % 2 ^ 64) ∈ ids_from c (List.replicate n x) := by
  induction n generalizing c j with
  | zero => omega
  | succ k ih =>
    rw [List.replicate_succ]
    simp only [ids_from, List.mem_cons]
    cases j with
    | zero =>
      left
      rw [Nat.add_zero, Nat.mod_eq_of_lt hc]
    | succ i =>
      right
      have h := ih (uint64_wrap (c + 1)) i (by omega) (Nat.mod_lt _ (by decide))
      have he : (uint64_wrap (c + 1) + i) % 2 ^ 64 = (c + (i + 1)) % 2 ^ 64 := by
        unfold uint64_wrap
        omega
      rw [he] at h
      exact h

theorem sync_call_run (c : SyncCall) (s : BridgeState) :
    (c.run s).g_request_id_counter = uint64_wrap (s.g_request_id_counter + 1) ∧
    ∃ rest, (c.run s).log = s.log ++ rest ∧
      registered_ids rest = [c.id ++ "_" ++ to_string s.g_request_id_counter] := by
  unfold SyncCall.run
  by_cases h : s.g_dart_request_port = ILLEGAL_PORT ∨ s.g_dart_api_dl_initialized = false
  · rw [send_unavailable _ _ _ _ _ _ _ h]
    exact ⟨rfl, _, rfl, rfl⟩
  · have hp : s.g_dart_request_port ≠ ILLEGAL_PORT := fun x => h (Or.inl x)
    have hi : s.g_dart_api_dl_initialized = true := by
      cases hb : s.g_dart_api_dl_initialized with
      | false => exact absurd (Or.inr hb) h
      | true => rfl
    cases hpost : c.post s.g_dart_request_port
        (device_data_request_message (next_request_id s c.id) c.id c.data c.len) with
    | false =>
      rw [send_rejected _ _ _ _ _ _ _ hp hi hpost]
      exact ⟨rfl, _, rfl, rfl⟩
    | true =>
      rw [send_accepted _ _ _ _ _ _ _ hp hi hpost]
      obtain ⟨rest, h1, h2⟩ :=
        run_host_calls_log c.during_wait (waiting_state s c.id c.data c.len c.timeout_ms)
      refine ⟨(run_host_calls_frame _ _).2.2, ?_⟩
      refine ⟨[Effect.registered (next_request_id s c.id) s.heap.length,
        Effect.Dart_PostCObject (Lock.g_port_mutex :: s.held) s.g_dart_request_port
          (device_data_request_message (next_request_id s c.id) c.id c.data c.len),
        Effect.wait_for s.held s.heap.length c.timeout_ms] ++ rest, ?_, ?_⟩
      · simp only [harvest]
        rw [h1]
        simp [waiting_state]
      · rw [registered_ids_append, h2]
        rfl

theorem run_sync_calls_log (s : BridgeState) (calls : List SyncCall) :
    ∃ rest, (run_sync_calls s calls).log = s.log ++ rest ∧
      registered_ids rest = ids_from s.g_request_id_counter calls := by
  induction calls generalizing s with
  | nil => exact ⟨[], by simp [run_sync_calls], rfl⟩
  | cons c cs ih =>
    obtain ⟨hc, r1, h1, g1⟩ := sync_call_run c s
    obtain ⟨r2, h2, g2⟩ := ih (c.run s)
    refine ⟨r1 ++ r2, ?_, ?_⟩
    · simp only [run_sync_calls, List.foldl_cons] at h2 ⊢
      rw [h2, h1, List.append_assoc]
    · rw [registered_ids_append, g1, g2, hc]
      rfl

theorem generated_request_ids_eq (s : BridgeState) (calls : List SyncCall) :
    generated_request_ids s calls = ids_from s.g_request_id_counter calls := by
  obtain ⟨rest, h1, h2⟩ := run_sync_calls_log s calls
  unfold generated_request_ids
  rw [h1, List.drop_left, h2]

theorem iterate_unavailable (c : SyncCall) (n : Nat) (s : BridgeState)
    (hport : s.g_dart_request_port = ILLEGAL_PORT)
    (hcounter : s.g_request_id_counter < 2 ^ 64)
    (hkeys : ∀ k ∈ map_keys s.g_pending_requests, ∀ m, k ≠ c.id ++ "_" ++ to_string m) :
    (Nat.iterate c.run n s).g_dart_request_port = ILLEGAL_PORT ∧
    (Nat.iterate c.run n s).g_pending_requests = s.g_pending_requests ∧
    (Nat.iterate c.run n s).g_request_id_counter = (s.g_request_id_counter + n) % 2 ^ 64 := by
  induction n with
  | zero => exact ⟨hport, rfl, (Nat.mod_eq_of_lt hcounter).symm⟩
  | succ k ih =>
    obtain ⟨h1, h2, h3⟩ := ih
    rw [Function.iterate_succ_apply']
    have hstep := send_unavailable c.post c.during_wait (Nat.iterate c.run k s) c.id c.data
      c.len c.timeout_ms (Or.inl h1)
    have hfresh : next_request_id (Nat.iterate c.run k s) c.id ∉
        map_keys (Nat.iterate c.run k s).g_pending_requests := by
      rw [h2]
      intro hmem
      exact hkeys _ hmem _ rfl
    have hrun : c.run (Nat.iterate c.run k s) = (send_device_data_request_sync c.post
        c.during_wait (Nat.iterate c.run k s) c.id c.data c.len c.timeout_ms).2 := rfl
    rw [hrun, hstep]
    refine ⟨h1, ?_, ?_⟩
    · show map_erase _ _ = _
      rw [map_erase_of_not_mem _ _ hfresh, h2]
    · show uint64_wrap _ = _
      rw [h3]
      unfold uint64_wrap
      omega

theorem parked_and_wrapped_fields :
    parked_and_wrapped.g_dart_request_port = ILLEGAL_PORT ∧
    parked_and_wrapped.g_pending_requests = [("dev1_0", 0)] ∧
    parked_and_wrapped.g_request_id_counter = 0 := by
  have h := iterate_unavailable other_call (2 ^ 64 - 1)
    (xp2p_clear_dart_port (waiting_state connected "dev1" [1, 2, 3] 3 5000))
    (by decide) (by decide)
    (by
      intro k hk m hkm
      have hk0 : k = "dev1" ++ "_" ++ to_string 0 := by
        have : map_keys (xp2p_clear_dart_port
            (waiting_state connected "dev1" [1, 2, 3] 3 5000)).g_pending_requests =
            ["dev1" ++ "_" ++ to_string 0] := by decide
        rw [this] at hk
        simpa using hk
      rw [hk0] at hkm
      have hid := (request_id_injective _ _ _ _ hkm).1
      exact absurd hid (by decide))
  refine ⟨h.1, ?_, ?_⟩
  · rw [parked_and_wrapped, h.2.1]
    decide
  · rw [parked_and_wrapped, h.2.2]
    decide

/-! ## The claims -/

/-- C1, as amended. The request ids generated by a sequence of at most `2 ^ 64` calls of
`send_device_data_request_sync`, started in any state and with any logical ids, transports
and environments, are pairwise distinct, and there is one id per call. -/
theorem generated_request_ids_nodup (s : BridgeState) (calls : List SyncCall)
    (h : calls.length ≤ 2 ^ 64) :
    (generated_request_ids s calls).Nodup ∧
    (generated_request_ids s calls).length = calls.length := by
  rw [generated_request_ids_eq]
  exact ⟨ids_from_nodup _ _ h, ids_from_length _ _⟩

/-- Three calls with the same logical id at program start get the ids "dev1_0", "dev1_1"
and "dev1_2". -/
theorem generated_request_ids_nodup_witness :
    generated_request_ids BridgeState.initial [sample_call, sample_call, sample_call] =
      ["dev1_0", "dev1_1", "dev1_2"] ∧
    (generated_request_ids BridgeState.initial [sample_call, sample_call, sample_call]).Nodup :=
  ⟨by decide,
   (generated_request_ids_nodup BridgeState.initial [sample_call, sample_call, sample_call]
    (by decide)).1⟩

/-- C1, as stated, fails: the counter has 64 bits, so in a sequence of `2 ^ 64 + 1` calls with
the logical id "dev1" the last call generates the request id of the first one again. -/
theorem generated_request_ids_repeat :
    ¬ (generated_request_ids BridgeState.initial
        (List.replicate (2 ^ 64 + 1) sample_call)).Nodup := by
  rw [generated_request_ids_eq, List.replicate_succ, ids_from_cons, List.nodup_cons]
  intro hnot
  apply hnot.1
  have h := mem_ids_from_replicate sample_call (2 ^ 64) (uint64_wrap (0 + 1)) (2 ^ 64 - 1)
    (by decide) (by decide)
  have he : (uint64_wrap (0 + 1) + (2 ^ 64 - 1)) % 2 ^ 64 = 0 := by decide
  rw [he] at h
  exact h

/-- C2, as amended. A call of `send_device_data_request_sync` whose envelope is sent (the
request port is set, the API is initialised, the transport accepts the envelope) and whose
request id is resolved with payload `P` during the wait, with no later resolution of the same
request id before the wait ends, returns exactly `P`; on return the registry has no entry
under the request id. Other threads may make any calls before the resolution, earlier
resolutions of the same request included, and after it any calls other than a resolution of
the same request; the registry is well formed (no entry points outside the heap of request
objects). -/
theorem send_device_data_request_sync_resolved (post : Transport)
    (before after : List HostCall) (s : BridgeState) (id : String) (data : List Nat)
    (len : Nat) (timeout_ms : Int) (P : String)
    (hp : s.g_dart_request_port ≠ ILLEGAL_PORT) (hi : s.g_dart_api_dl_initialized = true)
    (hpost : post s.g_dart_request_port
      (device_data_request_message (next_request_id s id) id data len) = true)
    (hwf : registry_WF s)
    (hafter : ∀ c ∈ after, c.resolves (next_request_id s id) = false) :
    (send_device_data_request_sync post
      (before ++ HostCall.xp2p_handle_device_data_response (some (next_request_id s id))
        (some P) :: after) s id data len timeout_ms).1 = P ∧
    next_request_id s id ∉ map_keys (send_device_data_request_sync post
      (before ++ HostCall.xp2p_handle_device_data_response (some (next_request_id s id))
        (some P) :: after) s id data len timeout_ms).2.g_pending_requests := by
  refine ⟨?_, ?_⟩
  · rw [send_accepted _ _ _ _ _ _ _ hp hi hpost]
    -- the state when the resolution arrives
    let w : BridgeState := { waiting_state s id data len timeout_ms with held := [] }
    let t1 := before.foldl (fun t c => c.apply t) w
    have hreg1 : t1.g_pending_requests =
        map_assign s.g_pending_requests (next_request_id s id) s.heap.length :=
      (host_fold_frame before w).1
    have hlen1 : t1.heap.length = s.heap.length + 1 := by
      rw [(host_fold_frame before w).2.1]
      simp [w, waiting_state]
    have hfind : map_find t1.g_pending_requests (next_request_id s id) = some s.heap.length := by
      rw [hreg1, map_find_assign_self]
    -- the resolution
    let t2 := (HostCall.xp2p_handle_device_data_response (some (next_request_id s id))
      (some P)).apply t1
    have ht2 : t2 = { t1 with
        heap := t1.heap.set s.heap.length { response := P, completed := true } } :=
      handle_response_found t1 _ P _ hfind
    have hget2 : t2.heap.get? s.heap.length = some { response := P, completed := true } := by
      rw [ht2]
      simp [List.getElem?_set, hlen1]
    -- the rest of the wait
    have hget3 : (after.foldl (fun t c => c.apply t) t2).heap.get? s.heap.length =
        some { response := P, completed := true } := by
      rw [host_fold_heap_get after t2 s.heap.length, hget2]
      intro c hc k resp hk
      have hne : k ≠ next_request_id s id := resolves_handle _ k resp (hk ▸ hafter c hc)
      have hreg2 : t2.g_pending_requests =
          map_assign s.g_pending_requests (next_request_id s id) s.heap.length := by
        rw [ht2]
        exact hreg1
      rw [hreg2]
      exact registered_only_under_rid s _ k hwf hne
    have hheap : (run_host_calls
        (before ++ HostCall.xp2p_handle_device_data_response (some (next_request_id s id))
          (some P) :: after) (waiting_state s id data len timeout_ms)).heap.get? s.heap.length
        = some { response := P, completed := true } := by
      simp only [run_host_calls, List.foldl_append, List.foldl_cons]
      exact hget3
    simp only [harvest, request_completed, request_response, hheap]
    simp
  · rw [send_registry]
    exact map_keys_erase _ _


/-- The scenario of the spec: on a connected bridge the request "dev1_0" is resolved with "OK"
during the wait; the caller receives "OK" and the registry has no entry under "dev1_0". -/
theorem send_device_data_request_sync_resolved_witness :
    (send_device_data_request_sync accepting
      ([] ++ HostCall.xp2p_handle_device_data_response (some "dev1_0") (some "OK") :: [])
      connected "dev1" [1, 2, 3] 3 5000).1 = "OK" ∧
    "dev1_0" ∉ map_keys (send_device_data_request_sync accepting
      ([] ++ HostCall.xp2p_handle_device_data_response (some "dev1_0") (some "OK") :: [])
      connected "dev1" [1, 2, 3] 3 5000).2.g_pending_requests :=
  send_device_data_request_sync_resolved accepting [] [] connected "dev1" [1, 2, 3] 3 5000 "OK"
    (by decide) rfl rfl (by decide) (by decide)

/-- C2, as stated, fails. On the connected bridge, whose registry is well formed, the request
"dev1_0" is sent and, during the wait, resolved with "A" and then with "B":
`xp2p_handle_device_data_response` assigns the response whether or not the request is
completed already. The resolution with "A" has been delivered in time, and the call returns
"B". -/
theorem send_device_data_request_sync_resolved_twice :
    next_request_id connected "dev1" = "dev1_0" ∧
    connected.g_dart_request_port ≠ ILLEGAL_PORT ∧
    connected.g_dart_api_dl_initialized = true ∧
    accepting connected.g_dart_request_port
      (device_data_request_message "dev1_0" "dev1" [1, 2, 3] 3) = true ∧
    registry_WF connected ∧
    (send_device_data_request_sync accepting
      [HostCall.xp2p_handle_device_data_response (some "dev1_0") (some "A"),
       HostCall.xp2p_handle_device_data_response (some "dev1_0") (some "B")]
      connected "dev1" [1, 2, 3] 3 5000).1 = "B" ∧
    (send_device_data_request_sync accepting
      [HostCall.xp2p_handle_device_data_response (some "dev1_0") (some "A"),
       HostCall.xp2p_handle_device_data_response (some "dev1_0") (some "B")]
      connected "dev1" [1, 2, 3] 3 5000).1 ≠ "A" := by
  decide

/-- C3. A call of `send_device_data_request_sync` whose envelope is sent but whose request is
not completed when the wait ends (which is the case, on a well-formed registry, when no call
during the wait resolves its request id) returns the empty string; on return the registry
holds no entry under the request id and every other entry is as before the call. -/
theorem send_device_data_request_sync_timed_out (post : Transport)
    (during_wait : List HostCall) (s : BridgeState) (id : String) (data : List Nat)
    (len : Nat) (timeout_ms : Int)
    (hp : s.g_dart_request_port ≠ ILLEGAL_PORT) (hi : s.g_dart_api_dl_initialized = true)
    (hpost : post s.g_dart_request_port
      (device_data_request_message (next_request_id s id) id data len) = true)
    (hnever :
      request_completed (run_host_calls during_wait (waiting_state s id data len timeout_ms))
        s.heap.length = false ∨
      (registry_WF s ∧ ∀ c ∈ during_wait, c.resolves (next_request_id s id) = false)) :
    (send_device_data_request_sync post during_wait s id data len timeout_ms).1 = "" ∧
    request_completed (run_host_calls during_wait (waiting_state s id data len timeout_ms))
      s.heap.length = false ∧
    next_request_id s id ∉ map_keys
      (send_device_data_request_sync post during_wait s id data len
        timeout_ms).2.g_pending_requests ∧
    (send_device_data_request_sync post during_wait s id data len
        timeout_ms).2.g_pending_requests =
      map_erase s.g_pending_requests (next_request_id s id) ∧
    ∀ k, k ≠ next_request_id s id →
      map_find (send_device_data_request_sync post during_wait s id data len
        timeout_ms).2.g_pending_requests k = map_find s.g_pending_requests k := by
  have hflag : request_completed (run_host_calls during_wait
      (waiting_state s id data len timeout_ms)) s.heap.length = false := by
    rcases hnever with hflag | ⟨hwf, hnone⟩
    · exact hflag
    · have hheap : (run_host_calls during_wait
          (waiting_state s id data len timeout_ms)).heap.get? s.heap.length =
          some PendingRequest.new := by
        simp only [run_host_calls]
        rw [host_fold_heap_get]
        · simp [waiting_state]
        · intro c hc k resp hk
          exact registered_only_under_rid s _ k hwf
            (resolves_handle _ k resp (hk ▸ hnone c hc))
      simp only [request_completed, hheap, PendingRequest.new]
  refine ⟨?_, hflag, ?_, send_registry _ _ _ _ _ _ _, ?_⟩
  · rw [send_accepted _ _ _ _ _ _ _ hp hi hpost]
    simp only [harvest, hflag]
    simp
  · rw [send_registry]
    exact map_keys_erase _ _
  · intro k hk
    rw [send_registry]
    exact map_find_erase_ne _ _ _ hk


/-- A connected bridge, a request that only sees an event of another stream and the
resolution of another request during its wait: the caller receives the empty string and the
registry is empty again. -/
theorem send_device_data_request_sync_timed_out_witness :
    (send_device_data_request_sync accepting
      [HostCall.xp2p_av_recv_bridge accepting "cam1" [7] 1,
       HostCall.xp2p_handle_device_data_response (some "dev1_1") (some "late")]
      connected "dev1" [1, 2, 3] 3 50).1 = "" ∧
    (send_device_data_request_sync accepting
      [HostCall.xp2p_av_recv_bridge accepting "cam1" [7] 1,
       HostCall.xp2p_handle_device_data_response (some "dev1_1") (some "late")]
      connected "dev1" [1, 2, 3] 3 50).2.g_pending_requests = [] := by
  have h := send_device_data_request_sync_timed_out accepting
    [HostCall.xp2p_av_recv_bridge accepting "cam1" [7] 1,
     HostCall.xp2p_handle_device_data_response (some "dev1_1") (some "late")]
    connected "dev1" [1, 2, 3] 3 50 (by decide) rfl rfl
    (Or.inr ⟨by decide, by decide⟩)
  exact ⟨h.1, h.2.2.2.1⟩

/-- C4, as amended. With the request port at the illegal sentinel,
`send_device_data_request_sync` returns the empty string; the log of the call consists of the
registration alone, so the transport primitive is not invoked and the bounded wait is not
entered; the registry after the call is the one before the call without the request id of
the call, hence equal to the registry before the call whenever that id was not registered
already. -/
theorem send_device_data_request_sync_illegal_port (post : Transport)
    (during_wait : List HostCall) (s : BridgeState) (id : String) (data : List Nat)
    (len : Nat) (timeout_ms : Int) (hport : s.g_dart_request_port = ILLEGAL_PORT) :
    (send_device_data_request_sync post during_wait s id data len timeout_ms).1 = "" ∧
    (send_device_data_request_sync post during_wait s id data len timeout_ms).2.log =
      s.log ++ [Effect.registered (next_request_id s id) s.heap.length] ∧
    (send_device_data_request_sync post during_wait s id data len
      timeout_ms).2.g_pending_requests =
        map_erase s.g_pending_requests (next_request_id s id) ∧
    (next_request_id s id ∉ map_keys s.g_pending_requests →
      (send_device_data_request_sync post during_wait s id data len
        timeout_ms).2.g_pending_requests = s.g_pending_requests) := by
  rw [send_unavailable _ _ _ _ _ _ _ (Or.inl hport)]
  exact ⟨rfl, rfl, rfl, fun h => map_erase_of_not_mem _ _ h⟩


/-- No port, and the request "cam2_0" of another thread parked: the call for "dev1" returns
the empty string, logs its registration only, and leaves the registry as it was. -/
theorem send_device_data_request_sync_illegal_port_witness :
    (send_device_data_request_sync accepting [] cleared_while_waiting "dev1" [1, 2, 3] 3
      5000).1 = "" ∧
    (send_device_data_request_sync accepting [] cleared_while_waiting "dev1" [1, 2, 3] 3
      5000).2.log = cleared_while_waiting.log ++ [Effect.registered "dev1_1" 1] ∧
    cleared_while_waiting.g_pending_requests = [("cam2_0", 0)] ∧
    (send_device_data_request_sync accepting [] cleared_while_waiting "dev1" [1, 2, 3] 3
      5000).2.g_pending_requests = [("cam2_0", 0)] :=
  ⟨(send_device_data_request_sync_illegal_port accepting [] cleared_while_waiting "dev1"
      [1, 2, 3] 3 5000 rfl).1,
   (send_device_data_request_sync_illegal_port accepting [] cleared_while_waiting "dev1"
      [1, 2, 3] 3 5000 rfl).2.1,
   by decide,
   (send_device_data_request_sync_illegal_port accepting [] cleared_while_waiting "dev1"
      [1, 2, 3] 3 5000 rfl).2.2.2 (by decide)⟩

/-- C4, as stated, fails. A thread is parked in the wait of its request "dev1_0", the ports
are cleared, and a second thread makes `2 ^ 64 - 1` calls that fail fast, so the counter is
back at 0. With no port set, the next call for "dev1" generates "dev1_0" again, replaces the
entry of the parked thread and erases it: the registry before the call holds that entry and
the registry after the call is empty. -/
theorem send_device_data_request_sync_illegal_port_collision :
    parked_and_wrapped.g_dart_request_port = ILLEGAL_PORT ∧
    parked_and_wrapped.g_pending_requests = [("dev1_0", 0)] ∧
    (send_device_data_request_sync accepting [] parked_and_wrapped "dev1" [1, 2, 3] 3
      5000).2.g_pending_requests = [] ∧
    (send_device_data_request_sync accepting [] parked_and_wrapped "dev1" [1, 2, 3] 3
      5000).2.g_pending_requests ≠ parked_and_wrapped.g_pending_requests := by
  obtain ⟨h1, h2, h3⟩ := parked_and_wrapped_fields
  have hreg : (send_device_data_request_sync accepting [] parked_and_wrapped "dev1" [1, 2, 3] 3
      5000).2.g_pending_requests = [] := by
    rw [send_registry, h2, next_request_id, h3]
    decide
  refine ⟨h1, h2, hreg, ?_⟩
  rw [hreg, h2]
  decide

/-- C5. `xp2p_handle_device_data_response` leaves the whole state as it is when the request
id is null, the response is null, or the request id is no key of the registry; so a
resolution that arrives after its call has returned changes nothing, the size of the registry
included. -/
theorem xp2p_handle_device_data_response_ignored (s : BridgeState)
    (request_id response : Option String)
    (h : request_id = none ∨ response = none ∨
      ∃ rid, request_id = some rid ∧ rid ∉ map_keys s.g_pending_requests) :
    xp2p_handle_device_data_response s request_id response = s ∧
    (xp2p_handle_device_data_response s request_id response).g_pending_requests.length =
      s.g_pending_requests.length ∧
    ∀ (post : Transport) (during_wait : List HostCall) (id : String) (data : List Nat)
      (len : Nat) (timeout_ms : Int) (late : Option String),
      xp2p_handle_device_data_response
        (send_device_data_request_sync post during_wait s id data len timeout_ms).2
        (some (next_request_id s id)) late =
      (send_device_data_request_sync post during_wait s id data len timeout_ms).2 := by
  have key : ∀ (t : BridgeState) (a b : Option String),
      (a = none ∨ b = none ∨ ∃ rid, a = some rid ∧ rid ∉ map_keys t.g_pending_requests) →
      xp2p_handle_device_data_response t a b = t := by
    intro t a b hab
    cases a with
    | none => simp [xp2p_handle_device_data_response]
    | some k =>
      cases b with
      | none => simp [xp2p_handle_device_data_response]
      | some r =>
        apply handle_response_not_found
        rw [map_find_eq_none_iff]
        rcases hab with h1 | h1 | ⟨rid, h1, h2⟩
        · cases h1
        · cases h1
        · cases h1
          exact h2
  refine ⟨key s _ _ h, by rw [key s _ _ h], ?_⟩
  intro post during_wait id data len timeout_ms late
  apply key
  refine Or.inr (Or.inr ⟨_, rfl, ?_⟩)
  rw [send_registry]
  exact map_keys_erase _ _


/-- A resolution for a request id that is not registered, next to a parked request of another
stream, changes nothing. -/
theorem xp2p_handle_device_data_response_ignored_witness :
    xp2p_handle_device_data_response cleared_while_waiting (some "cam2_7") (some "late") =
      cleared_while_waiting :=
  (xp2p_handle_device_data_response_ignored cleared_while_waiting (some "cam2_7")
    (some "late") (Or.inr (Or.inr ⟨"cam2_7", rfl, by decide⟩))).1

/-- C6. After `xp2p_clear_dart_port` the request port and the response port are the illegal
sentinel and the string cache is empty, so no key is found in it; the registry, the request
objects with their flags and payloads, and the request counter are as before. -/
theorem xp2p_clear_dart_port_effect (s : BridgeState) :
    (xp2p_clear_dart_port s).g_dart_request_port = ILLEGAL_PORT ∧
    (xp2p_clear_dart_port s).g_dart_response_port = ILLEGAL_PORT ∧
    (xp2p_clear_dart_port s).g_string_cache = [] ∧
    (∀ k, map_find (xp2p_clear_dart_port s).g_string_cache k = none) ∧
    (xp2p_clear_dart_port s).g_pending_requests = s.g_pending_requests ∧
    (xp2p_clear_dart_port s).heap = s.heap ∧
    (xp2p_clear_dart_port s).g_request_id_counter = s.g_request_id_counter := by
  simp [xp2p_clear_dart_port, acquire, release, map_find]

/-- C7, as amended. After `cache_string(k, v1)` and then `cache_string(k, v2)` the cache has
exactly one entry under `k`; its buffer, which the second call returns, holds the C string of
`v2`, that is `v2` up to its first NUL character, and so `v2` itself when `v2` has no NUL
character; lookups of all other keys give what they gave before the two calls; and the cache
has as many entries as after the first call alone. -/
theorem cache_string_twice (s : BridgeState) (k v1 v2 : String) :
    (cache_string (cache_string s k v1).2 k v2).2.g_string_cache.filter
      (fun e => decide (e.1 = k)) = [(k, strdup (c_str v2))] ∧
    map_find (cache_string (cache_string s k v1).2 k v2).2.g_string_cache k =
      some (cache_string (cache_string s k v1).2 k v2).1 ∧
    (cache_string (cache_string s k v1).2 k v2).1 = strdup (c_str v2) ∧
    (Char.ofNat 0 ∉ v2.data → (cache_string (cache_string s k v1).2 k v2).1 = v2) ∧
    (∀ k2, k2 ≠ k →
      map_find (cache_string (cache_string s k v1).2 k v2).2.g_string_cache k2 =
        map_find s.g_string_cache k2) ∧
    map_erase (cache_string (cache_string s k v1).2 k v2).2.g_string_cache k =
      map_erase s.g_string_cache k ∧
    (cache_string (cache_string s k v1).2 k v2).2.g_string_cache.length =
      (cache_string s k v1).2.g_string_cache.length := by
  have h2 : (cache_string (cache_string s k v1).2 k v2).2.g_string_cache =
      map_assign s.g_string_cache k (strdup (c_str v2)) := by
    simp [cache_string, acquire, release, map_assign_assign]
  have h1 : (cache_string s k v1).2.g_string_cache =
      map_assign s.g_string_cache k (strdup (c_str v1)) := by
    simp [cache_string, acquire, release]
  have hb : (cache_string (cache_string s k v1).2 k v2).1 = strdup (c_str v2) := rfl
  rw [h2, h1, hb]
  refine ⟨map_assign_entries _ _ _, map_find_assign_self _ _ _, rfl, ?_, ?_, ?_, ?_⟩
  · intro hnul
    rw [strdup, c_str_of_no_nul v2 hnul]
  · intro k2 hk
    exact map_find_assign_ne _ _ _ _ hk
  · exact map_erase_assign _ _ _
  · simp [map_assign]


/-- Interning "v1" and then "v2" under the key "k" in the empty cache leaves the one entry
("k", "v2"). -/
theorem cache_string_twice_witness :
    (cache_string (cache_string BridgeState.initial "k" "v1").2 "k" "v2").1 = "v2" ∧
    (cache_string (cache_string BridgeState.initial "k" "v1").2 "k" "v2").2.g_string_cache.filter
      (fun e => decide (e.1 = "k")) = [("k", "v2")] :=
  ⟨(cache_string_twice BridgeState.initial "k" "v1" "v2").2.2.2.1 (by decide),
   (cache_string_twice BridgeState.initial "k" "v1" "v2").1⟩

/-- C7, as stated, fails: the value "a", NUL, "b" is a `std::string` of three characters, and
the buffer `strdup(value.c_str())` cached for it holds "a" only. -/
theorem cache_string_truncates :
    with_nul.length = 3 ∧
    (cache_string (cache_string BridgeState.initial "k" "v1").2 "k" with_nul).1 = "a" ∧
    (cache_string (cache_string BridgeState.initial "k" "v1").2 "k" with_nul).1 ≠ with_nul ∧
    map_find (cache_string (cache_string BridgeState.initial "k" "v1").2 "k"
      with_nul).2.g_string_cache "k" ≠ some with_nul := by
  decide

/-- C8. When the request port is the illegal sentinel or the API is not initialised,
`post_data_message` returns false and leaves the whole state as it is: nothing is added to
the log, so the transport primitive is not invoked, and the registry, the counter and the
string cache are unchanged. The API is not initialised at program start, and a call of
`xp2p_init_dart_api` with a null pointer or with a failing `Dart_InitializeApiDL` leaves the
state, the flag included, as it is. -/
theorem post_data_message_unavailable (post : Transport) (s : BridgeState) (type id : String)
    (data : List Nat) (len : Nat)
    (h : s.g_dart_request_port = ILLEGAL_PORT ∨ s.g_dart_api_dl_initialized = false) :
    post_data_message post s type id data len = (false, s) ∧
    BridgeState.initial.g_dart_api_dl_initialized = false ∧
    (∀ init, xp2p_init_dart_api init s none = (-1, s)) ∧
    (∀ init p, init p ≠ 0 → xp2p_init_dart_api init s (some p) = (init p, s)) := by
  refine ⟨post_to_dart_unavailable post s _ h, rfl, fun _ => rfl, ?_⟩
  intro init p hne
  simp [xp2p_init_dart_api, hne]


/-- The scenario of the spec: the event ["avRecv", "cam1", 17 bytes] with no port set is
reported as failed and changes nothing. -/
theorem post_data_message_unavailable_witness :
    post_data_message accepting BridgeState.initial "avRecv" "cam1"
      [0, 1, 2, 3, 4, 5, 6, 7, 8, 9, 10, 11, 12, 13, 14, 15, 16] 17 =
      (false, BridgeState.initial) :=
  (post_data_message_unavailable accepting BridgeState.initial "avRecv" "cam1"
    [0, 1, 2, 3, 4, 5, 6, 7, 8, 9, 10, 11, 12, 13, 14, 15, 16] 17 (Or.inl rfl)).1

/-- C9. When the request port is set and the API is initialised, the call of
`send_device_data_request_sync` first registers the pending entry under its request id and
then hands to the transport, on the request port, the array of length four made of the string
"deviceDataRequest", the same request id, the logical id, and the byte buffer with the given
length; whatever else the call logs comes after these two events. When the port is not set
or the API is not initialised the registration is the only event and nothing reaches the
transport. -/
theorem send_device_data_request_sync_envelope (post : Transport)
    (during_wait : List HostCall) (s : BridgeState) (id : String) (data : List Nat)
    (len : Nat) (timeout_ms : Int) :
    (s.g_dart_request_port ≠ ILLEGAL_PORT → s.g_dart_api_dl_initialized = true →
      ∃ rest,
        (send_device_data_request_sync post during_wait s id data len timeout_ms).2.log =
          s.log ++
            [Effect.registered (next_request_id s id) s.heap.length,
             Effect.Dart_PostCObject (Lock.g_port_mutex :: s.held) s.g_dart_request_port
              (Dart_CObject.Dart_CObject_kArray 4
                [ Dart_CObject.Dart_CObject_kString "deviceDataRequest",
                  Dart_CObject.Dart_CObject_kString (next_request_id s id),
                  Dart_CObject.Dart_CObject_kString id,
                  Dart_CObject.Dart_CObject_kTypedData
                    Dart_TypedData_Type.Dart_TypedData_kUint8 len data ])] ++ rest ∧
        registered_ids rest = []) ∧
    (s.g_dart_request_port = ILLEGAL_PORT ∨ s.g_dart_api_dl_initialized = false →
      (send_device_data_request_sync post during_wait s id data len timeout_ms).2.log =
        s.log ++ [Effect.registered (next_request_id s id) s.heap.length]) := by
  constructor
  · intro hp hi
    cases hpost : post s.g_dart_request_port
        (device_data_request_message (next_request_id s id) id data len) with
    | false =>
      rw [send_rejected _ _ _ _ _ _ _ hp hi hpost]
      exact ⟨[], by simp [device_data_request_message], rfl⟩
    | true =>
      rw [send_accepted _ _ _ _ _ _ _ hp hi hpost]
      obtain ⟨rest, h1, h2⟩ :=
        run_host_calls_log during_wait (waiting_state s id data len timeout_ms)
      refine ⟨Effect.wait_for s.held s.heap.length timeout_ms :: rest, ?_, ?_⟩
      · simp only [harvest]
        rw [h1]
        simp [waiting_state, device_data_request_message]
      · simpa [registered_ids] using h2
  · intro h
    rw [send_unavailable _ _ _ _ _ _ _ h]


/-- On a connected bridge the call for "dev1" registers "dev1_0" and posts the envelope
["deviceDataRequest", "dev1_0", "dev1", 3 bytes] on port 4711. -/
theorem send_device_data_request_sync_envelope_witness :
    ∃ rest,
      (send_device_data_request_sync accepting [] connected "dev1" [1, 2, 3] 3 5000).2.log =
        connected.log ++
          [Effect.registered "dev1_0" 0,
           Effect.Dart_PostCObject [Lock.g_port_mutex] 4711
            (Dart_CObject.Dart_CObject_kArray 4
              [ Dart_CObject.Dart_CObject_kString "deviceDataRequest",
                Dart_CObject.Dart_CObject_kString "dev1_0",
                Dart_CObject.Dart_CObject_kString "dev1",
                Dart_CObject.Dart_CObject_kTypedData
                  Dart_TypedData_Type.Dart_TypedData_kUint8 3 [1, 2, 3] ])] ++ rest ∧
      registered_ids rest = [] :=
  (send_device_data_request_sync_envelope accepting [] connected "dev1" [1, 2, 3] 3 5000).1
    (by decide) rfl

/-- A call of `xp2p_msg_bridge` that no other call of it overlaps returns "0" for the type
`XP2PTypeSaveFileOn` and "" for the type `XP2PTypeSaveFileUrl`, in both cases without touching
the state, so no envelope is built or sent. For every other type it returns "", fills the
static envelope with the array of length four made of the string "msg", the id, the type as
a 32-bit integer, and the message, and does one `post_to_dart` of it; when the port is set
and the API initialised that envelope is the one new event in the log, whatever the transport
answers. -/
theorem xp2p_msg_bridge_alone (XP2PTypeSaveFileOn XP2PTypeSaveFileUrl : Int)
    (post : Transport) (s : BridgeState) (id : String) (type : Int) (msg : String)
    (hdistinct : XP2PTypeSaveFileOn ≠ XP2PTypeSaveFileUrl) :
    (type = XP2PTypeSaveFileOn →
      xp2p_msg_bridge XP2PTypeSaveFileOn XP2PTypeSaveFileUrl post s id type msg = ("0", s)) ∧
    (type = XP2PTypeSaveFileUrl →
      xp2p_msg_bridge XP2PTypeSaveFileOn XP2PTypeSaveFileUrl post s id type msg = ("", s)) ∧
    (type ≠ XP2PTypeSaveFileOn → type ≠ XP2PTypeSaveFileUrl →
      xp2p_msg_bridge XP2PTypeSaveFileOn XP2PTypeSaveFileUrl post s id type msg =
        ("", (post_to_dart post (post_msg_message_fill s id type msg)
          (Dart_CObject.Dart_CObject_kArray 4
            [ Dart_CObject.Dart_CObject_kString "msg",
              Dart_CObject.Dart_CObject_kString id,
              Dart_CObject.Dart_CObject_kInt32 (to_int32 type),
              Dart_CObject.Dart_CObject_kString msg ])).2) ∧
      (s.g_dart_request_port ≠ ILLEGAL_PORT → s.g_dart_api_dl_initialized = true →
        (xp2p_msg_bridge XP2PTypeSaveFileOn XP2PTypeSaveFileUrl post s id type msg).2.log =
          s.log ++ [Effect.Dart_PostCObject (Lock.g_port_mutex :: s.held)
            s.g_dart_request_port
            (Dart_CObject.Dart_CObject_kArray 4
              [ Dart_CObject.Dart_CObject_kString "msg",
                Dart_CObject.Dart_CObject_kString id,
                Dart_CObject.Dart_CObject_kInt32 (to_int32 type),
                Dart_CObject.Dart_CObject_kString msg ])])) ∧
    (-2 ^ 31 ≤ type → type < 2 ^ 31 → to_int32 type = type) := by
  refine ⟨?_, ?_, ?_, ?_⟩
  · intro h
    simp [xp2p_msg_bridge, h]
  · intro h
    have h2 : ¬ XP2PTypeSaveFileUrl = XP2PTypeSaveFileOn := fun x => hdistinct x.symm
    simp [xp2p_msg_bridge, h, h2]
  · intro h1 h2
    refine ⟨?_, ?_⟩
    · simp only [xp2p_msg_bridge, if_neg h1, if_neg h2]
      rfl
    · intro hp hi
      simp only [xp2p_msg_bridge, if_neg h1, if_neg h2]
      show (post_to_dart post (post_msg_message_fill s id type msg)
        (msg_message id type msg)).2.log = _
      rw [post_to_dart_available post (post_msg_message_fill s id type msg) _ hp hi]
      rfl
  · intro hlo hhi
    unfold to_int32
    rw [Int.emod_eq_of_lt (by omega) (by omega)]
    omega

/-- C10, the code at the failing input. Two calls of `xp2p_msg_bridge`, for ("A", 1002, "a")
and for ("B", 1002, "b"), each is the filling of the static envelope of `post_msg_message`
followed by its posting. Run one after the other they hand to the transport the envelopes
["msg", "A", 1002, "a"] and ["msg", "B", 1002, "b"]. Overlapping, with the second filling
between the first filling and the first posting, they hand ["msg", "B", 1002, "b"] to the
transport twice: the envelope of the first call never reaches it. -/
theorem xp2p_msg_bridge_overlap :
    xp2p_msg_bridge 8000 8001 accepting connected "A" 1002 "a" =
      ("", (post_msg_message_post accepting
        (post_msg_message_fill connected "A" 1002 "a")).2) ∧
    transport_messages (consecutive_msg_calls.log.drop connected.log.length) =
      [ Dart_CObject.Dart_CObject_kArray 4
          [ Dart_CObject.Dart_CObject_kString "msg", Dart_CObject.Dart_CObject_kString "A",
            Dart_CObject.Dart_CObject_kInt32 1002, Dart_CObject.Dart_CObject_kString "a" ],
        Dart_CObject.Dart_CObject_kArray 4
          [ Dart_CObject.Dart_CObject_kString "msg", Dart_CObject.Dart_CObject_kString "B",
            Dart_CObject.Dart_CObject_kInt32 1002, Dart_CObject.Dart_CObject_kString "b" ] ] ∧
    transport_messages (overlapping_msg_calls.log.drop connected.log.length) =
      [ Dart_CObject.Dart_CObject_kArray 4
          [ Dart_CObject.Dart_CObject_kString "msg", Dart_CObject.Dart_CObject_kString "B",
            Dart_CObject.Dart_CObject_kInt32 1002, Dart_CObject.Dart_CObject_kString "b" ],
        Dart_CObject.Dart_CObject_kArray 4
          [ Dart_CObject.Dart_CObject_kString "msg", Dart_CObject.Dart_CObject_kString "B",
            Dart_CObject.Dart_CObject_kInt32 1002, Dart_CObject.Dart_CObject_kString "b" ] ] ∧
    Dart_CObject.Dart_CObject_kArray 4
        [ Dart_CObject.Dart_CObject_kString "msg", Dart_CObject.Dart_CObject_kString "A",
          Dart_CObject.Dart_CObject_kInt32 1002, Dart_CObject.Dart_CObject_kString "a" ] ∉
      transport_messages (overlapping_msg_calls.log.drop connected.log.length) := by
  refine ⟨rfl, rfl, rfl, ?_⟩
  have h : transport_messages (overlapping_msg_calls.log.drop connected.log.length) =
      [ msg_message "B" 1002 "b", msg_message "B" 1002 "b" ] := rfl
  rw [h]
  simp [msg_message]

/-! ## Locks held at the transport calls -/

theorem transport_held_append (a b : List Effect) :
    transport_held (a ++ b) = transport_held a ++ transport_held b := by
  simp [transport_held, List.filterMap_append]

theorem post_to_dart_held (post : Transport) (s : BridgeState) (message : Dart_CObject) :
    ∃ rest, (post_to_dart post s message).2.log = s.log ++ rest ∧
      ∀ l ∈ transport_held rest, l = Lock.g_port_mutex :: s.held := by
  unfold post_to_dart
  simp only [acquire, release]
  split_ifs
  · exact ⟨[], by simp, by simp [transport_held]⟩
  · exact ⟨[], by simp, by simp [transport_held]⟩
  · exact ⟨[Effect.Dart_PostCObject (Lock.g_port_mutex :: s.held) s.g_dart_request_port
      message], rfl, by simp [transport_held]⟩

theorem post_msg_message_held (post : Transport) (s : BridgeState) (id : String)
    (msg_type : Int) (msg : String) :
    ∃ rest, (post_msg_message post s id msg_type msg).2.log = s.log ++ rest ∧
      ∀ l ∈ transport_held rest, l = Lock.g_port_mutex :: s.held :=
  post_to_dart_held post (post_msg_message_fill s id msg_type msg)
    (msg_message id msg_type msg)

theorem apply_held (c : HostCall) (s : BridgeState) :
    ∃ rest, (c.apply s).log = s.log ++ rest ∧
      ∀ l ∈ transport_held rest, l = Lock.g_port_mutex :: s.held := by
  cases c with
  | xp2p_handle_device_data_response rid resp =>
    refine ⟨[], ?_, by simp [transport_held]⟩
    cases rid with
    | none => simp [HostCall.apply, xp2p_handle_device_data_response]
    | some k =>
      cases resp with
      | none => simp [HostCall.apply, xp2p_handle_device_data_response]
      | some r =>
        simp only [HostCall.apply]
        cases hf : map_find s.g_pending_requests k with
        | none => rw [handle_response_not_found s k r hf]; simp
        | some request => rw [handle_response_found s k r request hf]; simp
  | xp2p_set_dart_port rp sp =>
    simp only [HostCall.apply, xp2p_set_dart_port, acquire, release]
    split_ifs
    · exact ⟨[Effect.setUserCallbackToXp2p], rfl, by simp [transport_held]⟩
    · exact ⟨[Effect.Dart_PostCObject (Lock.g_port_mutex :: s.held) rp
        (Dart_CObject.Dart_CObject_kString "__test__"), Effect.setUserCallbackToXp2p],
        by simp, by simp [transport_held]⟩
  | xp2p_init_dart_api init d =>
    refine ⟨[], ?_, by simp [transport_held]⟩
    cases d with
    | none => simp [HostCall.apply, xp2p_init_dart_api]
    | some p =>
      simp only [HostCall.apply, xp2p_init_dart_api]
      split_ifs <;> simp
  | xp2p_clear_dart_port =>
    exact ⟨[], by simp [HostCall.apply, xp2p_clear_dart_port, acquire, release],
      by simp [transport_held]⟩
  | xp2p_av_recv_bridge post id data len =>
    exact post_to_dart_held post s (data_message "avRecv" id data len)
  | xp2p_msg_bridge v_on v_url post id type msg =>
    simp only [HostCall.apply, xp2p_msg_bridge]
    split_ifs
    · exact ⟨[], by simp, by simp [transport_held]⟩
    · exact ⟨[], by simp, by simp [transport_held]⟩
    · exact post_msg_message_held post s id type msg

theorem host_fold_held (calls : List HostCall) (s : BridgeState) :
    ∃ rest, (calls.foldl (fun t c => c.apply t) s).log = s.log ++ rest ∧
      ∀ l ∈ transport_held rest, l = Lock.g_port_mutex :: s.held := by
  induction calls generalizing s with
  | nil => exact ⟨[], by simp, by simp [transport_held]⟩
  | cons c tail ih =>
    obtain ⟨r1, h1, g1⟩ := apply_held c s
    obtain ⟨r2, h2, g2⟩ := ih (c.apply s)
    rw [(apply_frame c s).2.2.2] at g2
    refine ⟨r1 ++ r2, ?_, ?_⟩
    · simp only [List.foldl_cons]
      rw [h2, h1, List.append_assoc]
    · intro l hl
      rw [transport_held_append] at hl
      rcases List.mem_append.1 hl with h | h
      · exact g1 l h
      · exact g2 l h

theorem send_held (post : Transport) (during_wait : List HostCall) (s : BridgeState)
    (id : String) (data : List Nat) (len : Nat) (timeout_ms : Int) (hheld : s.held = []) :
    (send_device_data_request_sync post during_wait s id data len timeout_ms).2.held = [] ∧
    ∃ rest,
      (send_device_data_request_sync post during_wait s id data len timeout_ms).2.log =
        s.log ++ rest ∧
      ∀ l ∈ transport_held rest, l = [Lock.g_port_mutex] := by
  by_cases h : s.g_dart_request_port = ILLEGAL_PORT ∨ s.g_dart_api_dl_initialized = false
  · rw [send_unavailable _ _ _ _ _ _ _ h]
    exact ⟨hheld, _, rfl, by simp [transport_held]⟩
  · have hp : s.g_dart_request_port ≠ ILLEGAL_PORT := fun x => h (Or.inl x)
    have hi : s.g_dart_api_dl_initialized = true := by
      cases hb : s.g_dart_api_dl_initialized with
      | false => exact absurd (Or.inr hb) h
      | true => rfl
    cases hpost : post s.g_dart_request_port
        (device_data_request_message (next_request_id s id) id data len) with
    | false =>
      rw [send_rejected _ _ _ _ _ _ _ hp hi hpost]
      exact ⟨hheld, _, rfl, by simp [transport_held, hheld]⟩
    | true =>
      rw [send_accepted _ _ _ _ _ _ _ hp hi hpost]
      obtain ⟨rest, h1, h2⟩ := host_fold_held during_wait
        { waiting_state s id data len timeout_ms with held := [] }
      refine ⟨hheld, ?_⟩
      refine ⟨[Effect.registered (next_request_id s id) s.heap.length,
        Effect.Dart_PostCObject (Lock.g_port_mutex :: s.held) s.g_dart_request_port
          (device_data_request_message (next_request_id s id) id data len),
        Effect.wait_for s.held s.heap.length timeout_ms] ++ rest, ?_, ?_⟩
      · show (run_host_calls during_wait (waiting_state s id data len timeout_ms)).log = _
        show (during_wait.foldl (fun (t : BridgeState) (c : HostCall) => c.apply t)
          { waiting_state s id data len timeout_ms with held := [] }).log = _
        rw [h1]
        simp [waiting_state]
      · intro l hl
        rw [transport_held_append] at hl
        rcases List.mem_append.1 hl with h | h
        · simp [transport_held, hheld] at h
          exact h
        · exact h2 l h

theorem bridge_call_held (c : BridgeCall) (s : BridgeState) (hheld : s.held = []) :
    (c.run s).held = [] ∧
    ∃ rest, (c.run s).log = s.log ++ rest ∧
      ∀ l ∈ transport_held rest, l = [Lock.g_port_mutex] := by
  cases c with
  | host h =>
    obtain ⟨rest, h1, h2⟩ := apply_held h s
    rw [hheld] at h2
    exact ⟨(apply_frame h s).2.2.2.trans hheld, rest, h1, h2⟩
  | sync x => exact send_held x.post x.during_wait s x.id x.data x.len x.timeout_ms hheld
  | xp2p_device_data_bridge post during_wait id data len =>
    have h := send_held post during_wait s id data len 5000 hheld
    simp only [BridgeCall.run, xp2p_device_data_bridge]
    split_ifs
    · exact h
    · exact h

theorem run_bridge_calls_held (s : BridgeState) (calls : List BridgeCall)
    (hheld : s.held = []) :
    (run_bridge_calls s calls).held = [] ∧
    ∃ rest, (run_bridge_calls s calls).log = s.log ++ rest ∧
      ∀ l ∈ transport_held rest, l = [Lock.g_port_mutex] := by
  induction calls generalizing s with
  | nil => exact ⟨hheld, [], by simp [run_bridge_calls], by simp [transport_held]⟩
  | cons c cs ih =>
    obtain ⟨g1, r1, h1, k1⟩ := bridge_call_held c s hheld
    obtain ⟨g2, r2, h2, k2⟩ := ih (c.run s) g1
    refine ⟨g2, r1 ++ r2, ?_, ?_⟩
    · simp only [run_bridge_calls, List.foldl_cons] at h2 ⊢
      rw [h2, h1, List.append_assoc]
    · intro l hl
      rw [transport_held_append] at hl
      rcases List.mem_append.1 hl with h | h
      · exact k1 l h
      · exact k2 l h

/-- C11, as amended. In every run of bridge calls made by a thread that enters the bridge
holding no lock, the set of locks held at each transport call, the one of `post_to_dart` and
the test send of `xp2p_set_dart_port` alike, is exactly the port lock `g_port_mutex`: the
registry lock, the string-cache lock and the request mutexes are not held there, and no lock
is held when the run is over. -/
theorem transport_calls_hold_port_lock (s : BridgeState) (calls : List BridgeCall)
    (hheld : s.held = []) :
    (∀ l ∈ transport_held ((run_bridge_calls s calls).log.drop s.log.length),
      l = [Lock.g_port_mutex]) ∧
    (run_bridge_calls s calls).held = [] := by
  obtain ⟨g, rest, h1, h2⟩ := run_bridge_calls_held s calls hheld
  refine ⟨?_, g⟩
  rw [h1, List.drop_left]
  exact h2

/-- At the start of a session (API initialised, ports set, one event sent) the transport is
called twice, by the test send and by `post_to_dart`, each time under the port lock alone. -/
theorem transport_calls_hold_port_lock_witness :
    transport_held ((run_bridge_calls BridgeState.initial session_calls).log.drop
      BridgeState.initial.log.length) = [[Lock.g_port_mutex], [Lock.g_port_mutex]] ∧
    (∀ l ∈ transport_held ((run_bridge_calls BridgeState.initial session_calls).log.drop
      BridgeState.initial.log.length), l = [Lock.g_port_mutex]) ∧
    (run_bridge_calls BridgeState.initial session_calls).held = [] :=
  ⟨by decide,
   (transport_calls_hold_port_lock BridgeState.initial session_calls rfl).1,
   (transport_calls_hold_port_lock BridgeState.initial session_calls rfl).2⟩

/-- C11, as stated, fails: at the start of a session the thread enters the bridge holding no
lock, and at both transport calls, the test send of `xp2p_set_dart_port` and the send of
`post_to_dart`, it holds the port lock, so the set of held locks is not empty there. -/
theorem transport_calls_not_lock_free :
    BridgeState.initial.held = [] ∧
    transport_held (run_bridge_calls BridgeState.initial session_calls).log =
      [[Lock.g_port_mutex], [Lock.g_port_mutex]] ∧
    ¬ (∀ l ∈ transport_held (run_bridge_calls BridgeState.initial session_calls).log,
      l = []) := by
  decide

/-! ## The result of the public entry point -/

theorem send_resolved_value (post : Transport) (before after : List HostCall)
    (s : BridgeState) (id : String) (data : List Nat) (len : Nat) (timeout_ms : Int)
    (P : String)
    (hp : s.g_dart_request_port ≠ ILLEGAL_PORT) (hi : s.g_dart_api_dl_initialized = true)
    (hpost : post s.g_dart_request_port
      (device_data_request_message (next_request_id s id) id data len) = true)
    (hwf : registry_WF s)
    (hafter : ∀ c ∈ after, c.resolves (next_request_id s id) = false) :
    (send_device_data_request_sync post
      (before ++ HostCall.xp2p_handle_device_data_response (some (next_request_id s id))
        (some P) :: after) s id data len timeout_ms).1 = P := by
  rw [send_accepted _ _ _ _ _ _ _ hp hi hpost]
  let w : BridgeState := { waiting_state s id data len timeout_ms with held := [] }
  let t1 := before.foldl (fun t c => c.apply t) w
  have hreg1 : t1.g_pending_requests =
      map_assign s.g_pending_requests (next_request_id s id) s.heap.length :=
    (host_fold_frame before w).1
  have hlen1 : t1.heap.length = s.heap.length + 1 := by
    rw [(host_fold_frame before w).2.1]
    simp [w, waiting_state]
  have hfind : map_find t1.g_pending_requests (next_request_id s id) = some s.heap.length := by
    rw [hreg1, map_find_assign_self]
  let t2 := (HostCall.xp2p_handle_device_data_response (some (next_request_id s id))
    (some P)).apply t1
  have ht2 : t2 = { t1 with
      heap := t1.heap.set s.heap.length { response := P, completed := true } } :=
    handle_response_found t1 _ P _ hfind
  have hget2 : t2.heap.get? s.heap.length = some { response := P, completed := true } := by
    rw [ht2]
    simp [List.getElem?_set, hlen1]
  have hget3 : (after.foldl (fun t c => c.apply t) t2).heap.get? s.heap.length =
      some { response := P, completed := true } := by
    rw [host_fold_heap_get after t2 s.heap.length, hget2]
    intro c hc k resp hk
    have hne : k ≠ next_request_id s id := resolves_handle _ k resp (hk ▸ hafter c hc)
    have hreg2 : t2.g_pending_requests =
        map_assign s.g_pending_requests (next_request_id s id) s.heap.length := by
      rw [ht2]
      exact hreg1
    rw [hreg2]
    exact registered_only_under_rid s _ k hwf hne
  have hheap : (run_host_calls
      (before ++ HostCall.xp2p_handle_device_data_response (some (next_request_id s id))
        (some P) :: after) (waiting_state s id data len timeout_ms)).heap.get? s.heap.length
      = some { response := P, completed := true } := by
    simp only [run_host_calls, List.foldl_append, List.foldl_cons]
    exact hget3
  simp only [harvest, request_completed, request_response, hheap]
  simp

theorem send_not_completed (post : Transport) (during_wait : List HostCall)
    (s : BridgeState) (id : String) (data : List Nat) (len : Nat) (timeout_ms : Int)
    (hp : s.g_dart_request_port ≠ ILLEGAL_PORT) (hi : s.g_dart_api_dl_initialized = true)
    (hpost : post s.g_dart_request_port
      (device_data_request_message (next_request_id s id) id data len) = true)
    (hflag : request_completed
      (run_host_calls during_wait (waiting_state s id data len timeout_ms))
      s.heap.length = false) :
    (send_device_data_request_sync post during_wait s id data len timeout_ms).1 = "" := by
  rw [send_accepted _ _ _ _ _ _ _ hp hi hpost]
  simp only [harvest, hflag]
  simp

theorem send_not_sent (post : Transport) (during_wait : List HostCall)
    (s : BridgeState) (id : String) (data : List Nat) (len : Nat) (timeout_ms : Int)
    (h : s.g_dart_request_port = ILLEGAL_PORT ∨ s.g_dart_api_dl_initialized = false ∨
      post s.g_dart_request_port
        (device_data_request_message (next_request_id s id) id data len) = false) :
    (send_device_data_request_sync post during_wait s id data len timeout_ms).1 = "" := by
  by_cases h0 : s.g_dart_request_port = ILLEGAL_PORT ∨ s.g_dart_api_dl_initialized = false
  · rw [send_unavailable _ _ _ _ _ _ _ h0]
  · have hp : s.g_dart_request_port ≠ ILLEGAL_PORT := fun x => h0 (Or.inl x)
    have hi : s.g_dart_api_dl_initialized = true := by
      cases hb : s.g_dart_api_dl_initialized with
      | false => exact absurd (Or.inr hb) h0
      | true => rfl
    have hpost : post s.g_dart_request_port
        (device_data_request_message (next_request_id s id) id data len) = false := by
      rcases h with h1 | h1 | h1
      · exact absurd h1 hp
      · rw [hi] at h1
        cases h1
      · exact h1
    rw [send_rejected _ _ _ _ _ _ _ hp hi hpost]

theorem apply_response_c_string (c : HostCall) (s : BridgeState) (request : Nat)
    (hc : c.response_is_c_string = true)
    (hobj : ∀ r, s.heap.get? request = some r → is_c_string r.response) :
    ∀ r, (c.apply s).heap.get? request = some r → is_c_string r.response := by
  cases c with
  | xp2p_handle_device_data_response rid resp =>
    cases rid with
    | none => simpa [HostCall.apply, xp2p_handle_device_data_response] using hobj
    | some k =>
      cases resp with
      | none => simpa [HostCall.apply, xp2p_handle_device_data_response] using hobj
      | some p =>
        have hp : is_c_string p := by
          simpa [HostCall.response_is_c_string] using hc
        simp only [HostCall.apply]
        cases hf : map_find s.g_pending_requests k with
        | none =>
          rw [handle_response_not_found s k p hf]
          exact hobj
        | some other =>
          rw [handle_response_found s k p other hf]
          intro r hr
          by_cases he : other = request
          · subst he
            by_cases hlt : other < s.heap.length
            · simp [List.getElem?_set, hlt] at hr
              rw [← hr]
              exact hp
            · simp [List.getElem?_set, hlt] at hr
          · simp only [List.get?_eq_getElem?] at hr
            rw [List.getElem?_set_ne he] at hr
            exact hobj r (by simpa using hr)
  | xp2p_set_dart_port rp sp =>
    rw [apply_heap_get _ s request (fun _ _ h => by cases h)]
    exact hobj
  | xp2p_init_dart_api init d =>
    rw [apply_heap_get _ s request (fun _ _ h => by cases h)]
    exact hobj
  | xp2p_clear_dart_port =>
    rw [apply_heap_get _ s request (fun _ _ h => by cases h)]
    exact hobj
  | xp2p_av_recv_bridge post id data len =>
    rw [apply_heap_get _ s request (fun _ _ h => by cases h)]
    exact hobj
  | xp2p_msg_bridge v_on v_url post id type msg =>
    rw [apply_heap_get _ s request (fun _ _ h => by cases h)]
    exact hobj

theorem host_fold_response_c_string (calls : List HostCall) (s : BridgeState) (request : Nat)
    (hc : ∀ c ∈ calls, c.response_is_c_string = true)
    (hobj : ∀ r, s.heap.get? request = some r → is_c_string r.response) :
    ∀ r, (calls.foldl (fun (t : BridgeState) (c : HostCall) => c.apply t) s).heap.get? request
      = some r → is_c_string r.response := by
  induction calls generalizing s with
  | nil => simpa using hobj
  | cons c rest ih =>
    simp only [List.foldl_cons]
    exact ih (c.apply s) (fun d hd => hc d (List.mem_cons_of_mem _ hd))
      (apply_response_c_string c s request (hc c (List.mem_cons_self _ _)) hobj)

theorem send_response_c_string (post : Transport) (during_wait : List HostCall)
    (s : BridgeState) (id : String) (data : List Nat) (len : Nat) (timeout_ms : Int)
    (hc : ∀ c ∈ during_wait, c.response_is_c_string = true) :
    is_c_string (send_device_data_request_sync post during_wait s id data len timeout_ms).1
    := by
  have hempty : is_c_string "" := by decide
  by_cases h : s.g_dart_request_port = ILLEGAL_PORT ∨ s.g_dart_api_dl_initialized = false
  · rw [send_unavailable _ _ _ _ _ _ _ h]
    exact hempty
  · have hp : s.g_dart_request_port ≠ ILLEGAL_PORT := fun x => h (Or.inl x)
    have hi : s.g_dart_api_dl_initialized = true := by
      cases hb : s.g_dart_api_dl_initialized with
      | false => exact absurd (Or.inr hb) h
      | true => rfl
    cases hpost : post s.g_dart_request_port
        (device_data_request_message (next_request_id s id) id data len) with
    | false =>
      rw [send_rejected _ _ _ _ _ _ _ hp hi hpost]
      exact hempty
    | true =>
      rw [send_accepted _ _ _ _ _ _ _ hp hi hpost]
      have hobj := host_fold_response_c_string during_wait
        { waiting_state s id data len timeout_ms with held := [] } s.heap.length hc
        (by
          intro r hr
          simp [waiting_state] at hr
          rw [← hr]
          exact hempty)
      simp only [harvest]
      split_ifs
      · simp only [request_response]
        cases hg : (run_host_calls during_wait
            (waiting_state s id data len timeout_ms)).heap.get? s.heap.length with
        | none => exact hempty
        | some r => exact hobj r hg
      · exact hempty

theorem device_data_bridge_cases (post : Transport) (during_wait : List HostCall)
    (s : BridgeState) (id : String) (data : List Nat) (len : Nat) :
    ((send_device_data_request_sync post during_wait s id data len 5000).1 = "" →
      (xp2p_device_data_bridge post during_wait s id data len).1 = none) ∧
    ((send_device_data_request_sync post during_wait s id data len 5000).1 ≠ "" →
      (xp2p_device_data_bridge post during_wait s id data len).1 =
        some (strdup (c_str (send_device_data_request_sync post during_wait s id data len
          5000).1))) := by
  unfold xp2p_device_data_bridge
  constructor
  · intro h
    rw [if_pos ((String.isEmpty_iff _).2 h)]
  · intro h
    rw [if_neg (fun he => h ((String.isEmpty_iff _).1 he))]

/-- C12, as amended. `xp2p_device_data_bridge` leaves the state that its call of
`send_device_data_request_sync` (timeout 5000 ms) leaves, and returns the null pointer exactly
when the response harvested by that call is the empty string; otherwise it returns
`strdup(response.c_str())`, which is a copy equal to the response, the responses handed to
`xp2p_handle_device_data_response` being C strings. So the result is null after a failed send,
after a wait that ends with the request not completed, and when the last resolution of the
request delivered during the wait carries the payload ""; and it is `P` when the last
resolution of the request delivered during the wait carries a payload `P` that is not
empty. -/
theorem xp2p_device_data_bridge_result (post : Transport) (during_wait : List HostCall)
    (s : BridgeState) (id : String) (data : List Nat) (len : Nat) :
    (xp2p_device_data_bridge post during_wait s id data len).2 =
      (send_device_data_request_sync post during_wait s id data len 5000).2 ∧
    ((xp2p_device_data_bridge post during_wait s id data len).1 = none ↔
      (send_device_data_request_sync post during_wait s id data len 5000).1 = "") ∧
    ((send_device_data_request_sync post during_wait s id data len 5000).1 ≠ "" →
      (xp2p_device_data_bridge post during_wait s id data len).1 =
        some (strdup (c_str (send_device_data_request_sync post during_wait s id data len
          5000).1))) ∧
    ((∀ c ∈ during_wait, c.response_is_c_string = true) →
      (send_device_data_request_sync post during_wait s id data len 5000).1 ≠ "" →
      (xp2p_device_data_bridge post during_wait s id data len).1 =
        some (send_device_data_request_sync post during_wait s id data len 5000).1) ∧
    (s.g_dart_request_port = ILLEGAL_PORT ∨ s.g_dart_api_dl_initialized = false ∨
      post s.g_dart_request_port
        (device_data_request_message (next_request_id s id) id data len) = false →
      (xp2p_device_data_bridge post during_wait s id data len).1 = none) ∧
    (s.g_dart_request_port ≠ ILLEGAL_PORT → s.g_dart_api_dl_initialized = true →
      post s.g_dart_request_port
        (device_data_request_message (next_request_id s id) id data len) = true →
      request_completed (run_host_calls during_wait (waiting_state s id data len 5000))
        s.heap.length = false →
      (xp2p_device_data_bridge post during_wait s id data len).1 = none) ∧
    (∀ (before after : List HostCall) (P : String),
      during_wait = before ++ HostCall.xp2p_handle_device_data_response
        (some (next_request_id s id)) (some P) :: after →
      s.g_dart_request_port ≠ ILLEGAL_PORT → s.g_dart_api_dl_initialized = true →
      post s.g_dart_request_port
        (device_data_request_message (next_request_id s id) id data len) = true →
      registry_WF s →
      (∀ c ∈ after, c.resolves (next_request_id s id) = false) →
      (P = "" → (xp2p_device_data_bridge post during_wait s id data len).1 = none) ∧
      (P ≠ "" → is_c_string P →
        (xp2p_device_data_bridge post during_wait s id data len).1 = some P)) := by
  have hcases := device_data_bridge_cases post during_wait s id data len
  refine ⟨?_, ?_, hcases.2, ?_, ?_, ?_, ?_⟩
  · dsimp only [xp2p_device_data_bridge]
    split_ifs <;> rfl
  · constructor
    · intro hnone
      by_contra hne
      rw [hcases.2 hne] at hnone
      cases hnone
    · exact hcases.1
  · intro hc hne
    rw [hcases.2 hne, strdup,
      c_str_of_no_nul _ (send_response_c_string post during_wait s id data len 5000 hc)]
  · intro h
    exact hcases.1 (send_not_sent post during_wait s id data len 5000 h)
  · intro hp hi hpost hflag
    exact hcases.1 (send_not_completed post during_wait s id data len 5000 hp hi hpost hflag)
  · intro before after P hdw hp hi hpost hwf hafter
    have hval : (send_device_data_request_sync post during_wait s id data len 5000).1 = P := by
      rw [hdw]
      exact send_resolved_value post before after s id data len 5000 P hp hi hpost hwf hafter
    constructor
    · intro hP
      exact hcases.1 (hval.trans hP)
    · intro hP hcs
      rw [hcases.2 (by rw [hval]; exact hP), hval, strdup, c_str_of_no_nul _ hcs]

/-- On a connected bridge: the request "dev1_0" resolved with "OK" yields "OK"; resolved with
"" it yields the null pointer, as does a request that nobody resolves and a request that the
transport rejects. -/
theorem xp2p_device_data_bridge_result_witness :
    (xp2p_device_data_bridge accepting
      [HostCall.xp2p_handle_device_data_response (some "dev1_0") (some "OK")]
      connected "dev1" [1, 2, 3] 3).1 = some "OK" ∧
    (xp2p_device_data_bridge accepting
      [HostCall.xp2p_handle_device_data_response (some "dev1_0") (some "")]
      connected "dev1" [1, 2, 3] 3).1 = none ∧
    (xp2p_device_data_bridge accepting [] connected "dev1" [1, 2, 3] 3).1 = none ∧
    (xp2p_device_data_bridge rejecting [] connected "dev1" [1, 2, 3] 3).1 = none :=
  ⟨((xp2p_device_data_bridge_result accepting
      [HostCall.xp2p_handle_device_data_response (some "dev1_0") (some "OK")]
      connected "dev1" [1, 2, 3] 3).2.2.2.2.2.2 [] [] "OK" rfl (by decide) rfl rfl
      (by decide) (by decide)).2 (by decide) (by decide),
   ((xp2p_device_data_bridge_result accepting
      [HostCall.xp2p_handle_device_data_response (some "dev1_0") (some "")]
      connected "dev1" [1, 2, 3] 3).2.2.2.2.2.2 [] [] "" rfl (by decide) rfl rfl
      (by decide) (by decide)).1 rfl,
   (xp2p_device_data_bridge_result accepting [] connected "dev1" [1, 2, 3] 3).2.2.2.2.2.1
      (by decide) rfl rfl (by decide),
   (xp2p_device_data_bridge_result rejecting [] connected "dev1" [1, 2, 3] 3).2.2.2.2.1
      (Or.inr (Or.inr rfl))⟩

/-- C12, as stated, fails. On the connected bridge the request "dev1_0" is sent and, during
the wait, resolved with "" and then with "B": it has been resolved in time with the empty
payload, and the result is "B", not the null pointer. Resolved with "A" and then with "B",
it has been resolved in time with the payload "A", which is not empty, and the result is
"B". -/
theorem xp2p_device_data_bridge_resolved_twice :
    next_request_id connected "dev1" = "dev1_0" ∧
    connected.g_dart_request_port ≠ ILLEGAL_PORT ∧
    connected.g_dart_api_dl_initialized = true ∧
    accepting connected.g_dart_request_port
      (device_data_request_message "dev1_0" "dev1" [1, 2, 3] 3) = true ∧
    registry_WF connected ∧
    (xp2p_device_data_bridge accepting
      [HostCall.xp2p_handle_device_data_response (some "dev1_0") (some ""),
       HostCall.xp2p_handle_device_data_response (some "dev1_0") (some "B")]
      connected "dev1" [1, 2, 3] 3).1 = some "B" ∧
    (xp2p_device_data_bridge accepting
      [HostCall.xp2p_handle_device_data_response (some "dev1_0") (some ""),
       HostCall.xp2p_handle_device_data_response (some "dev1_0") (some "B")]
      connected "dev1" [1, 2, 3] 3).1 ≠ none ∧
    (xp2p_device_data_bridge accepting
      [HostCall.xp2p_handle_device_data_response (some "dev1_0") (some "A"),
       HostCall.xp2p_handle_device_data_response (some "dev1_0") (some "B")]
      connected "dev1" [1, 2, 3] 3).1 = some "B" ∧
    (xp2p_device_data_bridge accepting
      [HostCall.xp2p_handle_device_data_response (some "dev1_0") (some "A"),
       HostCall.xp2p_handle_device_data_response (some "dev1_0") (some "B")]
      connected "dev1" [1, 2, 3] 3).1 ≠ some "A" := by
  decide

end DartBridge
